import Mathlib

/-!
# VulkanTest: frame orchestration and swapchain lifecycle

A shallow embedding of `src/source/instance.cpp`, `src/source/surface.cpp` and
`src/source/commander.cpp`.  Device and window-system calls are the
environment: what they return is an input of the embedded function, and the
calls a function issues are collected, in order, in a trace.

* 32-bit unsigned values are `Nat`, reduced `% 2 ^ 32` where the source can wrap.
* Vulkan handles are `Nat`; `VK_NULL_HANDLE` is `0`.
* `std::vector::operator[]` out of range is undefined behaviour; the embedding
  stops with `Status.undefined` there.
-/

namespace VulkanTest

/-! ## Constants of the Vulkan and C headers -/

abbrev VkResult := Int

def VK_SUCCESS : VkResult := 0
def VK_SUBOPTIMAL_KHR : VkResult := 1000001003
def VK_ERROR_OUT_OF_DATE_KHR : VkResult := -1000001004
def VK_ERROR_INITIALIZATION_FAILED : VkResult := -3
def VK_ERROR_DEVICE_LOST : VkResult := -4

def UINT32_MAX : Nat := 4294967295

abbrev Handle := Nat

def VK_NULL_HANDLE : Handle := 0

abbrev VkFormat := Nat
abbrev VkColorSpaceKHR := Nat
abbrev VkPresentModeKHR := Nat

def VK_FORMAT_B8G8R8A8_SRGB : VkFormat := 50
def VK_COLOR_SPACE_SRGB_NONLINEAR_KHR : VkColorSpaceKHR := 0
def VK_PRESENT_MODE_MAILBOX_KHR : VkPresentModeKHR := 1
def VK_PRESENT_MODE_FIFO_KHR : VkPresentModeKHR := 2

structure VkExtent2D where
  width : Nat
  height : Nat
deriving DecidableEq

structure VkSurfaceFormatKHR where
  format : VkFormat
  colorSpace : VkColorSpaceKHR
deriving DecidableEq

structure VkSurfaceCapabilitiesKHR where
  minImageCount : Nat
  maxImageCount : Nat
  currentExtent : VkExtent2D
  minImageExtent : VkExtent2D
  maxImageExtent : VkExtent2D
deriving DecidableEq

structure SwapChainSupportDetails where
  capabilities : VkSurfaceCapabilitiesKHR
  formats : List VkSurfaceFormatKHR
  presentModes : List VkPresentModeKHR
deriving DecidableEq

/-- The conversion `static_cast<uint32_t>` of a C `int`. -/
def castUInt32 (x : Int) : Nat := (x % 2 ^ 32).toNat

/-! ## Surface: the three selection functions (`surface.cpp`) -/

/-- `Surface::chooseSwapSurfaceFormat`; `none` is the out-of-range read
`availableFormats[0]` on an empty vector. -/
def chooseSwapSurfaceFormat (availableFormats : List VkSurfaceFormatKHR) :
    Option VkSurfaceFormatKHR :=
  match availableFormats.find? (fun availableFormat =>
      availableFormat.format == VK_FORMAT_B8G8R8A8_SRGB &&
      availableFormat.colorSpace == VK_COLOR_SPACE_SRGB_NONLINEAR_KHR) with
  | some availableFormat => some availableFormat
  | none => availableFormats.head?

/-- `Surface::chooseSwapPresentMode`. -/
def chooseSwapPresentMode (availablePresentModes : List VkPresentModeKHR) :
    VkPresentModeKHR :=
  match availablePresentModes.find? (fun availablePresentMode =>
      availablePresentMode == VK_PRESENT_MODE_MAILBOX_KHR) with
  | some availablePresentMode => availablePresentMode
  | none => VK_PRESENT_MODE_FIFO_KHR

/-- `Surface::chooseSwapExtent`; `framebufferSize` is what
`glfwGetFramebufferSize` writes to `width` and `height`. -/
def chooseSwapExtent (capabilities : VkSurfaceCapabilitiesKHR)
    (framebufferSize : Int × Int) : VkExtent2D :=
  if capabilities.currentExtent.width ≠ UINT32_MAX then
    capabilities.currentExtent
  else
    let actualExtent : VkExtent2D :=
      { width := castUInt32 framebufferSize.1, height := castUInt32 framebufferSize.2 }
    { width := max capabilities.minImageExtent.width
        (min capabilities.maxImageExtent.width actualExtent.width)
      height := max capabilities.minImageExtent.height
        (min capabilities.maxImageExtent.height actualExtent.height) }

/-- The image count `Surface::createSwapChain` puts in
`createInfo.minImageCount` (32-bit unsigned arithmetic). -/
def requestedImageCount (capabilities : VkSurfaceCapabilitiesKHR) : Nat :=
  let imageCount := (capabilities.minImageCount + 1) % 2 ^ 32
  if capabilities.maxImageCount > 0 ∧ imageCount > capabilities.maxImageCount then
    capabilities.maxImageCount
  else
    imageCount

/-- Clamping of a value into a range, as the specification words it. -/
def clampSpec (x lo hi : Nat) : Nat :=
  if x < lo then lo else if hi < x then hi else x

/-! ## State -/

/-- The kinds of resource that the create and destroy functions manage. -/
inductive Resource
  | window | vkInstance | debugMessenger | surface | logicalDevice
  | swapChain | imageViews | renderPass | descriptorSetLayout | graphicsPipeline
  | commandPool | colourResources | depthResources | framebuffers | texture
  | vertexBuffer | indexBuffer | uniformBuffers | descriptorPool | descriptorSets
  | commandBuffers | syncObjects
deriving DecidableEq

structure VkSwapchainCreateInfoKHR where
  minImageCount : Nat
  imageFormat : VkFormat
  imageColorSpace : VkColorSpaceKHR
  imageExtent : VkExtent2D
  concurrentSharing : Bool
  presentMode : VkPresentModeKHR
deriving DecidableEq

/-- A clear value; the float constants `0.0f` and `1.0f` are written `0` and `1`. -/
inductive VkClearValue
  | color (r g b a : Nat)
  | depthStencil (depth : Nat) (stencil : Nat)
deriving DecidableEq

/-- The commands recorded into a command buffer. -/
inductive Cmd
  | beginCommandBuffer
  | beginRenderPass (imageIndex : Nat) (clearValues : List VkClearValue)
  | bindPipeline (pipeline : Handle)
  | bindVertexBuffers (firstBinding : Nat) (buffers : List Handle) (offsets : List Nat)
  | bindIndexBuffer (buffer : Handle) (offset : Nat)
  | bindDescriptorSets (layout : Handle) (firstSet : Nat) (sets : List Handle)
  | drawIndexed (indexCount instanceCount firstIndex vertexOffset firstInstance : Nat)
  | endRenderPass
  | endCommandBuffer
deriving DecidableEq

/-- The calls issued by the create, destroy and rebuild functions. -/
inductive Call
  | getFramebufferSize
  | waitEvents
  | deviceWaitIdle
  | create (r : Resource)
  | destroy (r : Resource)
  | createSwapchainKHR (createInfo : VkSwapchainCreateInfoKHR)
  | createImageView (image : Handle)
  | destroyImageView (view : Handle)
  | allocateCommandBuffers (count : Nat)
  | glfwTerminate
deriving DecidableEq

/-- The calls issued by `Instance::drawFrame` itself. -/
inductive FrameCall
  | waitForFences (fence : Handle)
  | acquireNextImage (semaphore : Handle)
  | updateUniformBuffer (imageIndex : Nat)
  | resetFences (fence : Handle)
  | queueSubmit (commandBuffer : List Cmd) (waitSemaphore signalSemaphore fence : Handle)
  | queuePresent (imageIndex : Nat) (waitSemaphore : Handle)
  | recreateSwapChain (calls : List Call)
deriving DecidableEq

/-- How a call ends: it returns, it throws, it waits for ever, or it runs into
undefined behaviour (a vector read out of range). -/
inductive Status
  | returned
  | threw (what : String)
  | blocked
  | undefined
deriving DecidableEq

structure Surface where
  swapChainImages : List Handle
  swapChainImageViews : List Handle
  swapChainImageFormat : VkFormat
  swapChainExtent : VkExtent2D

structure Device where
  physical : Handle

structure Renderer where
  graphicsPipeline : Handle
  pipelineLayout : Handle

structure Descriptor where
  vertexBuffer : Handle
  indexBuffer : Handle
  nIndices : Nat
  descriptorSets : List Handle

/-- A command buffer is identified with the commands recorded in it. -/
structure Commander where
  buffers : List (List Cmd)

structure Sync where
  inFlightFences : List Handle
  imageAvailableSemaphores : List Handle
  renderFinishedSemaphores : List Handle
  imagesInFlight : List Handle

structure Instance where
  validationLayersEnabled : Bool
  currentFrame : Nat
  framebufferResized : Bool
  device : Device
  surface : Surface
  renderer : Renderer
  descriptor : Descriptor
  commander : Commander
  sync : Sync
  live : Resource → Bool

/-- The state a call leaves, the calls it issued, and how it ended. -/
structure Outcome (τ : Type) where
  inst : Instance
  trace : List τ
  status : Status

/-- Sequencing: the second step runs only when the first returned. -/
def Outcome.andThen {τ : Type} (o : Outcome τ) (f : Instance → Outcome τ) : Outcome τ :=
  match o.status with
  | Status.returned =>
    let o2 := f o.inst
    { inst := o2.inst, trace := o.trace ++ o2.trace, status := o2.status }
  | _ => o

/-- A `for` loop over the indices `xs`, left at the first iteration that does
not return. -/
def forEach {τ : Type} (body : Nat → Instance → Outcome τ) :
    List Nat → Instance → Outcome τ
  | [], s => { inst := s, trace := [], status := Status.returned }
  | i :: rest, s => (body i s).andThen (forEach body rest)

/-! ## Environment -/

/-- One iteration of the wait loop of `recreateSwapChain`: the size that
`glfwGetFramebufferSize` reports, and whether `framebufferResizeCallback` runs
during the `glfwWaitEvents` that follows. -/
structure WindowPoll where
  size : Int × Int
  resized : Bool

/-- What the device answers during `Surface::createSwapChain` and
`Surface::createImageViews`. -/
structure SwapchainEnv where
  support : SwapChainSupportDetails
  framebufferSize : Int × Int
  graphicsFamily : Option Nat
  presentFamily : Option Nat
  createResult : VkResult
  images : List Handle
  imageView : Handle → Handle

/-- What the device answers during `Commander::createBuffers`. -/
structure CommanderEnv where
  allocateResult : VkResult
  beginResult : Nat → VkResult
  endResult : Nat → VkResult

/-- What the window and the device answer during one `recreateSwapChain`.
When `polls` is used up with the size still degenerate, `glfwWaitEvents` does
not return. -/
structure RebuildEnv where
  initialSize : Int × Int
  polls : List WindowPoll
  swapchain : SwapchainEnv
  descriptorSets : List Handle
  commander : CommanderEnv

/-- What the window system and the device answer during `Instance::create`;
`candidateDevices` pairs each enumerated physical device with the value of
`isDeviceSuitable`, and the three sync fields give the handle created for
each frame slot. -/
structure CreateEnv where
  validationLayerSupport : Bool
  createInstanceResult : VkResult
  createDebugMessengerResult : VkResult
  createSurfaceResult : VkResult
  candidateDevices : List (Handle × Bool)
  createDeviceResult : VkResult
  createPoolResult : VkResult
  swapchain : SwapchainEnv
  descriptorSets : List Handle
  commander : CommanderEnv
  imageAvailableSemaphore : Nat → Handle
  renderFinishedSemaphore : Nat → Handle
  inFlightFence : Nat → Handle

/-- What the device answers during one `drawFrame`. -/
structure FrameEnv where
  acquireResult : VkResult
  imageIndex : Nat
  submitResult : VkResult
  presentResult : VkResult
  rebuild : RebuildEnv

/-! ## Resource bookkeeping -/

def Instance.setLive (s : Instance) (r : Resource) (b : Bool) : Instance :=
  { s with live := fun k => if k = r then b else s.live k }

/-- Modelled from the spec: the create functions whose source files
(`renderer.cpp`, `descriptor.cpp`, `model.cpp`) are not under `src/`, and the
create functions that are a single call.  Each is one call that makes its kind
of resource live and returns. -/
def createResource (r : Resource) (s : Instance) : Outcome Call :=
  { inst := s.setLive r true, trace := [Call.create r], status := Status.returned }

/-- Modelled from the spec: the destroy functions whose source files are not
under `src/`, and the single `vkDestroy...` calls.  Each is one call after
which its kind of resource is no longer live. -/
def destroyResource (r : Resource) (s : Instance) : Outcome Call :=
  { inst := s.setLive r false, trace := [Call.destroy r], status := Status.returned }

/-- The empty step. -/
def done {τ : Type} (s : Instance) : Outcome τ :=
  { inst := s, trace := [], status := Status.returned }

/-! ## `surface.cpp` -/

/-- `Surface::getSwapChainSize` (a `uint32_t`). -/
def getSwapChainSize (s : Instance) : Nat :=
  s.surface.swapChainImageViews.length % 2 ^ 32

/-- `Surface::createSwapChain`. -/
def createSwapChain (env : SwapchainEnv) (s : Instance) : Outcome Call :=
  let swapChainSupport := env.support
  match chooseSwapSurfaceFormat swapChainSupport.formats with
  | none => { inst := s, trace := [], status := Status.undefined }
  | some surfaceFormat =>
    let presentMode := chooseSwapPresentMode swapChainSupport.presentModes
    let sizeQuery : List Call :=
      if swapChainSupport.capabilities.currentExtent.width ≠ UINT32_MAX then []
      else [Call.getFramebufferSize]
    let extent := chooseSwapExtent swapChainSupport.capabilities env.framebufferSize
    let imageCount := requestedImageCount swapChainSupport.capabilities
    match env.graphicsFamily, env.presentFamily with
    | some graphicsFamily, some presentFamily =>
      let createInfo : VkSwapchainCreateInfoKHR :=
        { minImageCount := imageCount
          imageFormat := surfaceFormat.format
          imageColorSpace := surfaceFormat.colorSpace
          imageExtent := extent
          concurrentSharing := graphicsFamily != presentFamily
          presentMode := presentMode }
      if env.createResult ≠ VK_SUCCESS then
        { inst := s, trace := sizeQuery ++ [Call.createSwapchainKHR createInfo],
          status := Status.threw "failed to create swap chain!" }
      else
        { inst := { s with surface := { s.surface with
                      swapChainImages := env.images
                      swapChainImageFormat := surfaceFormat.format
                      swapChainExtent := extent } }.setLive Resource.swapChain true
          trace := sizeQuery ++ [Call.createSwapchainKHR createInfo]
          status := Status.returned }
    | _, _ => { inst := s, trace := sizeQuery, status := Status.threw "bad optional access" }

/-- `Surface::createImageViews`. -/
def createImageViews (env : SwapchainEnv) (s : Instance) : Outcome Call :=
  { inst := { s with surface := { s.surface with
                swapChainImageViews := s.surface.swapChainImages.map env.imageView } }.setLive
              Resource.imageViews true
    trace := s.surface.swapChainImages.map Call.createImageView
    status := Status.returned }

/-- `Surface::destroySwapChain`. -/
def destroySwapChain (s : Instance) : Outcome Call :=
  destroyResource Resource.swapChain s

/-- `Surface::destroyImageViews`: the loop runs over `swapChainImages.size()`
and reads `swapChainImageViews[i]`. -/
def destroyImageViews (s : Instance) : Outcome Call :=
  let swapChainSize := s.surface.swapChainImages.length % 2 ^ 32
  (forEach (fun i st =>
      match st.surface.swapChainImageViews.get? i with
      | some view => { inst := st, trace := [Call.destroyImageView view], status := Status.returned }
      | none => { inst := st, trace := [], status := Status.undefined })
    (List.range swapChainSize) s).andThen
  (fun st => done (st.setLive Resource.imageViews false))

/-! ## `commander.cpp` -/

/-- `std::vector::resize` with value-initialised new elements. -/
def resize {α : Type} (xs : List α) (n : Nat) (fill : α) : List α :=
  xs.take n ++ List.replicate (n - xs.length) fill

/-- The commands `Commander::createBuffers` records into buffer `i` up to
and including `vkCmdEndRenderPass`. -/
def recordedCommands (s : Instance) (i : Nat) (descriptorSet : Handle) : List Cmd :=
  [ Cmd.beginCommandBuffer,
    Cmd.beginRenderPass i [VkClearValue.color 0 0 0 1, VkClearValue.depthStencil 1 0],
    Cmd.bindPipeline s.renderer.graphicsPipeline,
    Cmd.bindVertexBuffers 0 [s.descriptor.vertexBuffer] [0],
    Cmd.bindIndexBuffer s.descriptor.indexBuffer 0,
    Cmd.bindDescriptorSets s.renderer.pipelineLayout 0 [descriptorSet],
    Cmd.drawIndexed s.descriptor.nIndices 1 0 0 0,
    Cmd.endRenderPass ]

def Instance.setBuffer (s : Instance) (i : Nat) (cmds : List Cmd) : Instance :=
  { s with commander := { buffers := s.commander.buffers.set i cmds } }

/-- The body of the recording loop of `Commander::createBuffers`. -/
def recordBuffer (env : CommanderEnv) (i : Nat) (s : Instance) : Outcome Call :=
  if env.beginResult i ≠ VK_SUCCESS then
    { inst := s, trace := [], status := Status.threw "failed to begin recording command buffer!" }
  else
    match s.descriptor.descriptorSets.get? i with
    | none =>
      { inst := s.setBuffer i [Cmd.beginCommandBuffer], trace := [], status := Status.undefined }
    | some descriptorSet =>
      let cmds := recordedCommands s i descriptorSet
      if env.endResult i ≠ VK_SUCCESS then
        { inst := s.setBuffer i cmds, trace := [],
          status := Status.threw "failed to record command buffer!" }
      else
        { inst := s.setBuffer i (cmds ++ [Cmd.endCommandBuffer]), trace := [],
          status := Status.returned }

/-- `Commander::createBuffers`. -/
def createBuffers (env : CommanderEnv) (s : Instance) : Outcome Call :=
  let n := getSwapChainSize s
  let s1 : Instance := { s with commander := { buffers := resize s.commander.buffers n [] } }
  if env.allocateResult ≠ VK_SUCCESS then
    { inst := s1, trace := [Call.allocateCommandBuffers n],
      status := Status.threw "failed to allocate command buffers!" }
  else
    let s2 : Instance :=
      { s1 with commander := { buffers := List.replicate n [] } }.setLive Resource.commandBuffers true
    ({ inst := s2, trace := [Call.allocateCommandBuffers n], status := Status.returned } :
      Outcome Call).andThen (forEach (recordBuffer env) (List.range n))

/-- `Commander::destroyBuffers`. -/
def destroyBuffers (s : Instance) : Outcome Call :=
  destroyResource Resource.commandBuffers s

/-! ## `instance.cpp` -/

/-- Modelled from the spec: `Descriptor::createDescriptorSets`, whose source
file is not under `src/`; it leaves one descriptor set per image, the handles
being the environment's. -/
def createDescriptorSets (descriptorSets : List Handle) (s : Instance) : Outcome Call :=
  { inst := { s with descriptor := { s.descriptor with descriptorSets := descriptorSets } }.setLive
              Resource.descriptorSets true
    trace := [Call.create Resource.descriptorSets]
    status := Status.returned }

/-- `Instance::cleanupSwapChain`. -/
def cleanupSwapChain (s : Instance) : Outcome Call :=
  (destroyResource Resource.colourResources s).andThen fun s =>
  (destroyResource Resource.depthResources s).andThen fun s =>
  (destroyResource Resource.framebuffers s).andThen fun s =>
  (destroyBuffers s).andThen fun s =>
  (destroyResource Resource.graphicsPipeline s).andThen fun s =>
  (destroyResource Resource.renderPass s).andThen fun s =>
  (destroyImageViews s).andThen fun s =>
  (destroySwapChain s).andThen fun s =>
  (destroyResource Resource.uniformBuffers s).andThen fun s =>
  destroyResource Resource.descriptorPool s

/-- The wait loop of `Instance::recreateSwapChain`: while the size is
degenerate, read it again and wait for events. -/
def waitForExtent : List WindowPoll → Int × Int → Instance → Outcome Call
  | [], size, s =>
    if size.1 = 0 ∨ size.2 = 0 then
      { inst := s, trace := [Call.getFramebufferSize, Call.waitEvents], status := Status.blocked }
    else done s
  | p :: rest, size, s =>
    if size.1 = 0 ∨ size.2 = 0 then
      ({ inst := { s with framebufferResized := s.framebufferResized || p.resized }
         trace := [Call.getFramebufferSize, Call.waitEvents]
         status := Status.returned } : Outcome Call).andThen (waitForExtent rest p.size)
    else done s

/-- `Instance::recreateSwapChain`. -/
def recreateSwapChain (env : RebuildEnv) (s : Instance) : Outcome Call :=
  ({ inst := s, trace := [Call.getFramebufferSize], status := Status.returned } :
    Outcome Call).andThen fun s =>
  (waitForExtent env.polls env.initialSize s).andThen fun s =>
  ({ inst := s, trace := [Call.deviceWaitIdle], status := Status.returned } :
    Outcome Call).andThen fun s =>
  (cleanupSwapChain s).andThen fun s =>
  (createSwapChain env.swapchain s).andThen fun s =>
  (createImageViews env.swapchain s).andThen fun s =>
  (createResource Resource.renderPass s).andThen fun s =>
  (createResource Resource.colourResources s).andThen fun s =>
  (createResource Resource.depthResources s).andThen fun s =>
  (createResource Resource.framebuffers s).andThen fun s =>
  (createResource Resource.uniformBuffers s).andThen fun s =>
  (createResource Resource.descriptorPool s).andThen fun s =>
  (createDescriptorSets env.descriptorSets s).andThen fun s =>
  createBuffers env.commander s

/-- A call of `recreateSwapChain` from `drawFrame`, as one entry of the frame's
trace. -/
def rebuild (env : RebuildEnv) (s : Instance) : Outcome FrameCall :=
  let o := recreateSwapChain env s
  { inst := o.inst, trace := [FrameCall.recreateSwapChain o.trace], status := o.status }

/-- `Instance::drawFrame`; `F` is `MAX_FRAMES_IN_FLIGHT`. -/
def drawFrame (F : Nat) (env : FrameEnv) (s : Instance) : Outcome FrameCall :=
  match s.sync.inFlightFences.get? s.currentFrame,
        s.sync.imageAvailableSemaphores.get? s.currentFrame with
  | some inFlightFence, some imageAvailable =>
    let imageIndex := env.imageIndex
    let result := env.acquireResult
    let t0 := [FrameCall.waitForFences inFlightFence, FrameCall.acquireNextImage imageAvailable]
    if result = VK_ERROR_OUT_OF_DATE_KHR then
      ({ inst := s, trace := t0, status := Status.returned } : Outcome FrameCall).andThen
        (rebuild env.rebuild)
    else if result ≠ VK_SUCCESS ∧ result ≠ VK_SUBOPTIMAL_KHR then
      { inst := s, trace := t0, status := Status.threw "failed to acquire swap chain image!" }
    else
      match s.sync.imagesInFlight.get? imageIndex with
      | none => { inst := s, trace := t0, status := Status.undefined }
      | some owner =>
        let t1 := t0 ++ (if owner ≠ VK_NULL_HANDLE then [FrameCall.waitForFences owner] else [])
        let s1 : Instance :=
          { s with sync := { s.sync with
              imagesInFlight := s.sync.imagesInFlight.set imageIndex inFlightFence } }
        let t2 := t1 ++ [FrameCall.updateUniformBuffer imageIndex]
        match s1.commander.buffers.get? imageIndex,
              s1.sync.renderFinishedSemaphores.get? s1.currentFrame with
        | some commandBuffer, some renderFinished =>
          let t3 := t2 ++ [FrameCall.resetFences inFlightFence,
            FrameCall.queueSubmit commandBuffer imageAvailable renderFinished inFlightFence]
          if env.submitResult ≠ VK_SUCCESS then
            { inst := s1, trace := t3,
              status := Status.threw "failed to submit draw command buffer!" }
          else
            -- the value `vkQueuePresentKHR` returns is not stored
            let t4 := t3 ++ [FrameCall.queuePresent imageIndex renderFinished]
            let presented : Outcome FrameCall :=
              { inst := s1, trace := t4, status := Status.returned }
            let decided : Outcome FrameCall :=
              if result = VK_ERROR_OUT_OF_DATE_KHR ∨ result = VK_SUBOPTIMAL_KHR ∨
                  s1.framebufferResized = true then
                presented.andThen (rebuild env.rebuild)
              else if result ≠ VK_SUCCESS then
                { inst := s1, trace := t4,
                  status := Status.threw "failed to present swap chain image!" }
              else presented
            decided.andThen fun s2 =>
              done { s2 with currentFrame := (s2.currentFrame + 1) % F }
        | _, _ => { inst := s1, trace := t2, status := Status.undefined }
  | _, _ => { inst := s, trace := [], status := Status.undefined }

/-- `Instance::createInstance`. -/
def createInstance (env : CreateEnv) (s : Instance) : Outcome Call :=
  if s.validationLayersEnabled = true ∧ env.validationLayerSupport = false then
    { inst := s, trace := [],
      status := Status.threw "validation layers requested, but not available! Compiled for debug?" }
  else if env.createInstanceResult ≠ VK_SUCCESS then
    { inst := s, trace := [], status := Status.threw "failed to create instance!" }
  else createResource Resource.vkInstance s

/-- `Instance::setupDebugMessenger`. -/
def setupDebugMessenger (env : CreateEnv) (s : Instance) : Outcome Call :=
  if s.validationLayersEnabled = false then done s
  else if env.createDebugMessengerResult ≠ VK_SUCCESS then
    { inst := s, trace := [], status := Status.threw "failed to set up debug messenger!" }
  else createResource Resource.debugMessenger s

/-- `Surface::createSurface`, reached through `Instance::createSurface`. -/
def createSurface (env : CreateEnv) (s : Instance) : Outcome Call :=
  if env.createSurfaceResult ≠ VK_SUCCESS then
    { inst := s, trace := [], status := Status.threw "failed to create window surface!" }
  else createResource Resource.surface s

/-- `Device::pickPhysicalDevice`. -/
def pickPhysicalDevice (env : CreateEnv) (s : Instance) : Outcome Call :=
  if env.candidateDevices.length = 0 then
    { inst := s, trace := [], status := Status.threw "failed to find GPUs with Vulkan support!" }
  else
    let physical :=
      match env.candidateDevices.find? (fun candidateDevice => candidateDevice.2) with
      | some candidateDevice => candidateDevice.1
      | none => s.device.physical
    let s1 : Instance := { s with device := { physical := physical } }
    if physical = VK_NULL_HANDLE then
      { inst := s1, trace := [], status := Status.threw "failed to find a suitable GPU!" }
    else done s1

/-- `Device::createLogicalDevice`. -/
def createLogicalDevice (env : CreateEnv) (s : Instance) : Outcome Call :=
  match env.swapchain.graphicsFamily, env.swapchain.presentFamily with
  | some _, some _ =>
    if env.createDeviceResult ≠ VK_SUCCESS then
      { inst := s, trace := [], status := Status.threw "failed to create logical device!" }
    else createResource Resource.logicalDevice s
  | _, _ => { inst := s, trace := [], status := Status.threw "bad optional access" }

/-- `Commander::createPool`. -/
def createPool (env : CreateEnv) (s : Instance) : Outcome Call :=
  match env.swapchain.graphicsFamily with
  | some _ =>
    if env.createPoolResult ≠ VK_SUCCESS then
      { inst := s, trace := [], status := Status.threw "failed to create command pool!" }
    else createResource Resource.commandPool s
  | none => { inst := s, trace := [], status := Status.threw "bad optional access" }

/-- Modelled from the spec: `Sync::createSyncObjects`, whose source file is not
under `src/`: `F` image-available semaphores, `F` render-finished semaphores,
`F` fences, and an image-in-flight table with one entry "none" per swapchain
image. -/
def createSyncObjects (F : Nat) (env : CreateEnv) (s : Instance) : Outcome Call :=
  { inst := { s with sync :=
                { inFlightFences := (List.range F).map env.inFlightFence
                  imageAvailableSemaphores := (List.range F).map env.imageAvailableSemaphore
                  renderFinishedSemaphores := (List.range F).map env.renderFinishedSemaphore
                  imagesInFlight :=
                    List.replicate s.surface.swapChainImages.length VK_NULL_HANDLE } }.setLive
              Resource.syncObjects true
    trace := [Call.create Resource.syncObjects]
    status := Status.returned }

/-- `Instance::create`; `F` is `MAX_FRAMES_IN_FLIGHT`. -/
def create (F : Nat) (enableValidationLayers : Bool) (env : CreateEnv) (s : Instance) :
    Outcome Call :=
  (createResource Resource.window s).andThen fun s =>
  (done { s with validationLayersEnabled := enableValidationLayers } :
    Outcome Call).andThen fun s =>
  (done { s with currentFrame := 0 } : Outcome Call).andThen fun s =>
  (createInstance env s).andThen fun s =>
  (setupDebugMessenger env s).andThen fun s =>
  (createSurface env s).andThen fun s =>
  (pickPhysicalDevice env s).andThen fun s =>
  (createLogicalDevice env s).andThen fun s =>
  (createSwapChain env.swapchain s).andThen fun s =>
  (createImageViews env.swapchain s).andThen fun s =>
  (createResource Resource.renderPass s).andThen fun s =>
  (createResource Resource.descriptorSetLayout s).andThen fun s =>
  (createResource Resource.graphicsPipeline s).andThen fun s =>
  (createPool env s).andThen fun s =>
  (createResource Resource.colourResources s).andThen fun s =>
  (createResource Resource.depthResources s).andThen fun s =>
  (createResource Resource.framebuffers s).andThen fun s =>
  (createResource Resource.texture s).andThen fun s =>
  (createResource Resource.vertexBuffer s).andThen fun s =>
  (createResource Resource.indexBuffer s).andThen fun s =>
  (createResource Resource.uniformBuffers s).andThen fun s =>
  (createResource Resource.descriptorPool s).andThen fun s =>
  (createDescriptorSets env.descriptorSets s).andThen fun s =>
  (createBuffers env.commander s).andThen fun s =>
  createSyncObjects F env s

/-! ## Predicates used in the statements -/

def FrameCall.isRebuild : FrameCall → Bool
  | FrameCall.recreateSwapChain _ => true
  | _ => false

def FrameCall.isFenceReset : FrameCall → Bool
  | FrameCall.resetFences _ => true
  | _ => false

def FrameCall.isSubmit : FrameCall → Bool
  | FrameCall.queueSubmit _ _ _ _ => true
  | _ => false

def FrameCall.isPresent : FrameCall → Bool
  | FrameCall.queuePresent _ _ => true
  | _ => false

/-- A framebuffer size with both sides nonzero. -/
def nonDegenerate (size : Int × Int) : Prop := size.1 ≠ 0 ∧ size.2 ≠ 0

instance (size : Int × Int) : Decidable (nonDegenerate size) := by
  unfold nonDegenerate
  infer_instance

/-- The environment rejects nothing during a rebuild: queue families are
found and every creation, allocation and recording call succeeds. -/
structure NoRejection (env : RebuildEnv) : Prop where
  graphicsFamily : env.swapchain.graphicsFamily.isSome = true
  presentFamily : env.swapchain.presentFamily.isSome = true
  created : env.swapchain.createResult = VK_SUCCESS
  allocated : env.commander.allocateResult = VK_SUCCESS
  begun : ∀ i, env.commander.beginResult i = VK_SUCCESS
  ended : ∀ i, env.commander.endResult i = VK_SUCCESS

/-- Conditions under which `recreateSwapChain` runs to its end: the window
reaches a non-degenerate size, every image has a view, a surface format and a
descriptor set per new image exist, and nothing is rejected. -/
structure RebuildOk (env : RebuildEnv) (s : Instance) : Prop where
  extent : nonDegenerate env.initialSize ∨ ∃ p ∈ env.polls, nonDegenerate p.size
  views : s.surface.swapChainImages.length ≤ s.surface.swapChainImageViews.length
  formats : env.swapchain.support.formats ≠ []
  sets : env.swapchain.images.length ≤ env.descriptorSets.length
  accepted : NoRejection env

/-- The part of the state that only `drawFrame` writes: the frame counter and
the synchronisation set are `c` and `y`, and a pending-resize flag that was
set (`b`) is still set. -/
def Frozen (c : Nat) (y : Sync) (b : Bool) (t : Instance) : Prop :=
  t.currentFrame = c ∧ t.sync = y ∧ (b = true → t.framebufferResized = true)

/-- Whenever `f` returns, the state it leaves satisfies `Q`. -/
def Ensures {τ : Type} (f : Instance → Outcome τ) (Q : Instance → Prop) : Prop :=
  ∀ s, (f s).status = Status.returned → Q (f s).inst

/-- Every step of `f` from a state satisfying `P` returns, in a state
satisfying `Q`. -/
def Returns {τ : Type} (P : Instance → Prop) (f : Instance → Outcome τ)
    (Q : Instance → Prop) : Prop :=
  ∀ s, P s → (f s).status = Status.returned ∧ Q (f s).inst

/-- The state `f` leaves satisfies `P` whenever the state it starts from does,
however `f` ends. -/
def Keeps {τ : Type} (P : Instance → Prop) (f : Instance → Outcome τ) : Prop :=
  ∀ s, P s → P (f s).inst

/-- Every swapchain image has an image view, so that the loop of
`destroyImageViews` reads inside `swapChainImageViews`. -/
def ViewsOk (t : Instance) : Prop :=
  t.surface.swapChainImages.length ≤ t.surface.swapChainImageViews.length

/-! ## A running example: two frame slots, three swapchain images -/

def exampleSupport : SwapChainSupportDetails :=
  { capabilities :=
      { minImageCount := 2, maxImageCount := 3
        currentExtent := { width := 800, height := 600 }
        minImageExtent := { width := 1, height := 1 }
        maxImageExtent := { width := 4096, height := 4096 } }
    formats := [{ format := VK_FORMAT_B8G8R8A8_SRGB, colorSpace := VK_COLOR_SPACE_SRGB_NONLINEAR_KHR }]
    presentModes := [VK_PRESENT_MODE_FIFO_KHR] }

/-- A device that accepts the swapchain and hands out the given images. -/
def exampleSwapchainEnv (createResult : VkResult) (images : List Handle) : SwapchainEnv :=
  { support := exampleSupport
    framebufferSize := (800, 600)
    graphicsFamily := some 0
    presentFamily := some 0
    createResult := createResult
    images := images
    imageView := fun image => image + 10 }

def exampleCommanderEnv : CommanderEnv :=
  { allocateResult := VK_SUCCESS
    beginResult := fun _ => VK_SUCCESS
    endResult := fun _ => VK_SUCCESS }

/-- A rebuild in a window of size 800 x 600. -/
def exampleRebuildEnv (createResult : VkResult) (images : List Handle) : RebuildEnv :=
  { initialSize := (800, 600)
    polls := []
    swapchain := exampleSwapchainEnv createResult images
    descriptorSets := images.map (fun image => image + 40)
    commander := exampleCommanderEnv }

/-- One frame: the results of acquire, submit and present, the acquired image
index, and a rebuild that succeeds with three images. -/
def exampleFrameEnv (acquireResult : VkResult) (imageIndex : Nat) (submitResult : VkResult)
    (presentResult : VkResult) : FrameEnv :=
  { acquireResult := acquireResult
    imageIndex := imageIndex
    submitResult := submitResult
    presentResult := presentResult
    rebuild := exampleRebuildEnv VK_SUCCESS [41, 42, 43] }

/-- A state as `create` leaves it, a few frames later: frame slot 0 is current
and image 1 is still owned by the fence of slot 1. -/
def exampleInstance (framebufferResized : Bool) : Instance :=
  { validationLayersEnabled := false
    currentFrame := 0
    framebufferResized := framebufferResized
    device := { physical := 7 }
    surface :=
      { swapChainImages := [41, 42, 43]
        swapChainImageViews := [51, 52, 53]
        swapChainImageFormat := VK_FORMAT_B8G8R8A8_SRGB
        swapChainExtent := { width := 800, height := 600 } }
    renderer := { graphicsPipeline := 61, pipelineLayout := 62 }
    descriptor :=
      { vertexBuffer := 71, indexBuffer := 72, nIndices := 6, descriptorSets := [81, 82, 83] }
    commander := { buffers := [[Cmd.beginCommandBuffer], [Cmd.endRenderPass], []] }
    sync :=
      { inFlightFences := [11, 12]
        imageAvailableSemaphores := [21, 22]
        renderFinishedSemaphores := [31, 32]
        imagesInFlight := [0, 12, 0] }
    live := fun _ => true }

/-! ## Vocabulary for the statements about `drawFrame` -/

def FrameCall.isWait : FrameCall → Bool
  | FrameCall.waitForFences _ => true
  | _ => false

/-- The state in which `fence` has been recorded as the owner of image `k`
(line 146 of `instance.cpp`). -/
def Instance.claim (s : Instance) (k : Nat) (fence : Handle) : Instance :=
  { s with sync := { s.sync with imagesInFlight := s.sync.imagesInFlight.set k fence } }

/-- The last statement of `drawFrame`: the frame counter moves on. -/
def advanceFrame (F : Nat) (s : Instance) : Outcome FrameCall :=
  done { s with currentFrame := (s.currentFrame + 1) % F }

/-- The wait on the previous owner of the acquired image, issued only when the
table entry is not `VK_NULL_HANDLE`. -/
def imageWait (owner : Handle) : List FrameCall :=
  if owner ≠ VK_NULL_HANDLE then [FrameCall.waitForFences owner] else []

/-- The calls of a frame up to the acquire. -/
def stepsToAcquire (fence semaphore : Handle) : List FrameCall :=
  [FrameCall.waitForFences fence, FrameCall.acquireNextImage semaphore]

/-- The calls of a frame up to the image wait and the uniform-buffer update. -/
def stepsToImageWait (fence semaphore owner : Handle) (k : Nat) : List FrameCall :=
  stepsToAcquire fence semaphore ++ imageWait owner ++ [FrameCall.updateUniformBuffer k]

/-- The calls of a frame up to the submission. -/
def stepsToSubmit (fence semaphore owner : Handle) (k : Nat) (commandBuffer : List Cmd)
    (renderFinished : Handle) : List FrameCall :=
  stepsToImageWait fence semaphore owner k ++
    [FrameCall.resetFences fence,
     FrameCall.queueSubmit commandBuffer semaphore renderFinished fence]

/-- The calls of a frame up to the present. -/
def stepsToPresent (fence semaphore owner : Handle) (k : Nat) (commandBuffer : List Cmd)
    (renderFinished : Handle) : List FrameCall :=
  stepsToSubmit fence semaphore owner k commandBuffer renderFinished ++
    [FrameCall.queuePresent k renderFinished]

/-- The acquire result gives an image to draw into. -/
def usable (result : VkResult) : Prop :=
  result = VK_SUCCESS ∨ result = VK_SUBOPTIMAL_KHR

/-- The result is success or one of the two staleness codes. -/
def successOrStale (result : VkResult) : Prop :=
  result = VK_SUCCESS ∨ result = VK_SUBOPTIMAL_KHR ∨ result = VK_ERROR_OUT_OF_DATE_KHR

instance (result : VkResult) : Decidable (usable result) := by
  unfold usable
  infer_instance

instance (result : VkResult) : Decidable (successOrStale result) := by
  unfold successOrStale
  infer_instance

/-- The step `f` never throws. -/
def NoThrow {τ : Type} (f : Instance → Outcome τ) : Prop :=
  ∀ s what, (f s).status ≠ Status.threw what

/-- The orders of calls the frame protocol allows for a frame with slot fence
`fence`, image-available semaphore `semaphore` and acquired image `k`, whose
entry in the image-in-flight table is `entry`: a frame stops after the acquire
(with a rebuild when the swapchain was out of date), after the image wait,
after the submission, or after the present (with or without a rebuild); the
image wait is on the table entry, and the fence reset stands between the image
wait and the submission that signals the same fence. -/
inductive FrameOrder (fence semaphore : Handle) (entry : Option Handle) (k : Nat) :
    List FrameCall → Prop
  | staleAtAcquire (calls : List Call) :
    FrameOrder fence semaphore entry k
      (stepsToAcquire fence semaphore ++ [FrameCall.recreateSwapChain calls])
  | stoppedAtAcquire : FrameOrder fence semaphore entry k (stepsToAcquire fence semaphore)
  | stoppedAtImageWait (owner : Handle) (h : entry = some owner) :
    FrameOrder fence semaphore entry k (stepsToImageWait fence semaphore owner k)
  | stoppedAtSubmit (owner : Handle) (h : entry = some owner) (commandBuffer : List Cmd)
      (renderFinished : Handle) :
    FrameOrder fence semaphore entry k
      (stepsToSubmit fence semaphore owner k commandBuffer renderFinished)
  | presented (owner : Handle) (h : entry = some owner) (commandBuffer : List Cmd)
      (renderFinished : Handle) :
    FrameOrder fence semaphore entry k
      (stepsToPresent fence semaphore owner k commandBuffer renderFinished)
  | presentedAndRebuilt (owner : Handle) (h : entry = some owner) (commandBuffer : List Cmd)
      (renderFinished : Handle) (calls : List Call) :
    FrameOrder fence semaphore entry k
      (stepsToPresent fence semaphore owner k commandBuffer renderFinished ++
        [FrameCall.recreateSwapChain calls])


/-! ## Vocabulary for the statements about the selection functions -/

/-- The surface format `chooseSwapSurfaceFormat` looks for. -/
def preferredFormat (availableFormat : VkSurfaceFormatKHR) : Prop :=
  availableFormat.format = VK_FORMAT_B8G8R8A8_SRGB ∧
    availableFormat.colorSpace = VK_COLOR_SPACE_SRGB_NONLINEAR_KHR

instance (availableFormat : VkSurfaceFormatKHR) : Decidable (preferredFormat availableFormat) := by
  unfold preferredFormat
  infer_instance

/-- A capability with the given image counts; the extents play no part in the
image count. -/
def countCapabilities (minImageCount maxImageCount : Nat) : VkSurfaceCapabilitiesKHR :=
  { minImageCount := minImageCount, maxImageCount := maxImageCount
    currentExtent := { width := 800, height := 600 }
    minImageExtent := { width := 1, height := 1 }
    maxImageExtent := { width := 4096, height := 4096 } }


/-! ## `instance.cpp`: shutdown -/

/-- `Instance::destroy`. -/
def destroy (s : Instance) : Outcome Call :=
  (cleanupSwapChain s).andThen fun s =>
  (destroyResource Resource.texture s).andThen fun s =>
  (destroyResource Resource.descriptorSetLayout s).andThen fun s =>
  (destroyResource Resource.indexBuffer s).andThen fun s =>
  (destroyResource Resource.vertexBuffer s).andThen fun s =>
  (destroyResource Resource.syncObjects s).andThen fun s =>
  (destroyResource Resource.commandPool s).andThen fun s =>
  (destroyResource Resource.logicalDevice s).andThen fun s =>
  (if s.validationLayersEnabled = true then destroyResource Resource.debugMessenger s
    else done s).andThen fun s =>
  (destroyResource Resource.surface s).andThen fun s =>
  (destroyResource Resource.vkInstance s).andThen fun s =>
  (destroyResource Resource.window s).andThen fun s =>
  { inst := s, trace := [Call.glfwTerminate], status := Status.returned }

/-- The kind of resource a call creates. -/
def Call.created : Call → Option Resource
  | Call.create r => some r
  | Call.createSwapchainKHR _ => some Resource.swapChain
  | Call.createImageView _ => some Resource.imageViews
  | Call.allocateCommandBuffers _ => some Resource.commandBuffers
  | _ => none

/-- The kind of resource a call releases. -/
def Call.released : Call → Option Resource
  | Call.destroy r => some r
  | Call.destroyImageView _ => some Resource.imageViews
  | _ => none

/-- A list of kinds with each run of one kind (one call per image) counted once. -/
def kinds : List Resource → List Resource
  | [] => []
  | r :: rest => if rest.head? = some r then kinds rest else r :: kinds rest

/-- The order in which the calls of a trace create the kinds of resource. -/
def creationOrder (trace : List Call) : List Resource :=
  kinds (trace.filterMap Call.created)

/-- The order in which the calls of a trace release the kinds of resource. -/
def releaseOrder (trace : List Call) : List Resource :=
  kinds (trace.filterMap Call.released)

/-- The calls of `cleanupSwapChain` up to the image views. -/
def releasedBeforeViews : List Call :=
  [Call.destroy Resource.colourResources, Call.destroy Resource.depthResources,
   Call.destroy Resource.framebuffers, Call.destroy Resource.commandBuffers,
   Call.destroy Resource.graphicsPipeline, Call.destroy Resource.renderPass]

/-- The calls of `destroy` between the image views and the debug messenger. -/
def releasedAfterViews : List Call :=
  [Call.destroy Resource.swapChain, Call.destroy Resource.uniformBuffers,
   Call.destroy Resource.descriptorPool, Call.destroy Resource.texture,
   Call.destroy Resource.descriptorSetLayout, Call.destroy Resource.indexBuffer,
   Call.destroy Resource.vertexBuffer, Call.destroy Resource.syncObjects,
   Call.destroy Resource.commandPool, Call.destroy Resource.logicalDevice]

/-- The last calls of `destroy`. -/
def releasedLast : List Call :=
  [Call.destroy Resource.surface, Call.destroy Resource.vkInstance,
   Call.destroy Resource.window, Call.glfwTerminate]

/-- The kinds of resource the shutdown order of the specification names, in
the order in which it names them. -/
def shutdownOrder : List Resource :=
  [Resource.syncObjects, Resource.commandPool, Resource.framebuffers, Resource.depthResources,
   Resource.colourResources, Resource.graphicsPipeline, Resource.renderPass,
   Resource.imageViews, Resource.swapChain, Resource.logicalDevice, Resource.surface,
   Resource.vkInstance, Resource.window]

/-- A window system and a device that accept every call of `create` and hand
out three swapchain images. -/
def exampleCreateEnv : CreateEnv :=
  { validationLayerSupport := true
    createInstanceResult := VK_SUCCESS
    createDebugMessengerResult := VK_SUCCESS
    createSurfaceResult := VK_SUCCESS
    candidateDevices := [(7, true)]
    createDeviceResult := VK_SUCCESS
    createPoolResult := VK_SUCCESS
    swapchain := exampleSwapchainEnv VK_SUCCESS [41, 42, 43]
    descriptorSets := [81, 82, 83]
    commander := exampleCommanderEnv
    imageAvailableSemaphore := fun i => 21 + i
    renderFinishedSemaphore := fun i => 31 + i
    inFlightFence := fun i => 11 + i }

/-- The state before `create`: nothing is live. -/
def emptyInstance : Instance :=
  { validationLayersEnabled := false
    currentFrame := 0
    framebufferResized := false
    device := { physical := VK_NULL_HANDLE }
    surface :=
      { swapChainImages := []
        swapChainImageViews := []
        swapChainImageFormat := 0
        swapChainExtent := { width := 0, height := 0 } }
    renderer := { graphicsPipeline := 61, pipelineLayout := 62 }
    descriptor := { vertexBuffer := 71, indexBuffer := 72, nIndices := 6, descriptorSets := [] }
    commander := { buffers := [] }
    sync :=
      { inFlightFences := []
        imageAvailableSemaphores := []
        renderFinishedSemaphores := []
        imagesInFlight := [] }
    live := fun _ => false }


/-! ## `commander.cpp`: single-time commands and layout transitions -/

abbrev VkImageLayout := Nat

def VK_IMAGE_LAYOUT_UNDEFINED : VkImageLayout := 0
def VK_IMAGE_LAYOUT_DEPTH_STENCIL_ATTACHMENT_OPTIMAL : VkImageLayout := 3
def VK_IMAGE_LAYOUT_SHADER_READ_ONLY_OPTIMAL : VkImageLayout := 5
def VK_IMAGE_LAYOUT_TRANSFER_SRC_OPTIMAL : VkImageLayout := 6
def VK_IMAGE_LAYOUT_TRANSFER_DST_OPTIMAL : VkImageLayout := 7

def VK_IMAGE_ASPECT_COLOR_BIT : Nat := 1
def VK_IMAGE_ASPECT_DEPTH_BIT : Nat := 2
def VK_IMAGE_ASPECT_STENCIL_BIT : Nat := 4

def VK_ACCESS_SHADER_READ_BIT : Nat := 32
def VK_ACCESS_DEPTH_STENCIL_ATTACHMENT_READ_BIT : Nat := 512
def VK_ACCESS_DEPTH_STENCIL_ATTACHMENT_WRITE_BIT : Nat := 1024
def VK_ACCESS_TRANSFER_WRITE_BIT : Nat := 4096

def VK_PIPELINE_STAGE_TOP_OF_PIPE_BIT : Nat := 1
def VK_PIPELINE_STAGE_FRAGMENT_SHADER_BIT : Nat := 128
def VK_PIPELINE_STAGE_EARLY_FRAGMENT_TESTS_BIT : Nat := 256
def VK_PIPELINE_STAGE_TRANSFER_BIT : Nat := 4096

structure VkImageMemoryBarrier where
  oldLayout : VkImageLayout
  newLayout : VkImageLayout
  image : Handle
  aspectMask : Nat
  baseMipLevel : Nat
  levelCount : Nat
  baseArrayLayer : Nat
  layerCount : Nat
  srcAccessMask : Nat
  dstAccessMask : Nat
deriving DecidableEq

/-- The calls issued around a single-time command buffer. -/
inductive TransferCall
  | allocateCommandBuffers (count : Nat)
  | beginCommandBuffer (commandBuffer : Handle)
  | cmdPipelineBarrier (commandBuffer : Handle) (sourceStage destinationStage : Nat)
      (barrier : VkImageMemoryBarrier)
  | endCommandBuffer (commandBuffer : Handle)
  | queueSubmit (commandBuffer : Handle)
  | queueWaitIdle
  | freeCommandBuffers (commandBuffer : Handle)
deriving DecidableEq

/-- The calls a function of `Commander` issued, and how it ended. -/
structure Transfer where
  calls : List TransferCall
  status : Status
deriving DecidableEq

/-- What the device and `util` answer during a layout transition: the command
buffer that `vkAllocateCommandBuffers` hands out, and the value of
`hasStencilComponent`. -/
structure TransitionEnv where
  commandBuffer : Handle
  hasStencilComponent : VkFormat → Bool

/-- `Commander::beginSingleTimeCommands`; the results of the two calls are not
tested. -/
def beginSingleTimeCommands (commandBuffer : Handle) : List TransferCall :=
  [TransferCall.allocateCommandBuffers 1, TransferCall.beginCommandBuffer commandBuffer]

/-- `Commander::endSingleTimeCommands`. -/
def endSingleTimeCommands (commandBuffer : Handle) : List TransferCall :=
  [TransferCall.endCommandBuffer commandBuffer, TransferCall.queueSubmit commandBuffer,
    TransferCall.queueWaitIdle, TransferCall.freeCommandBuffers commandBuffer]

/-- `Commander::transitionImageLayout`. -/
def transitionImageLayout (env : TransitionEnv) (image : Handle) (format : VkFormat)
    (oldLayout newLayout : VkImageLayout) (mipLevels : Nat) : Transfer :=
  let commandBuffer := env.commandBuffer
  let begun := beginSingleTimeCommands commandBuffer
  let aspectMask :=
    if newLayout = VK_IMAGE_LAYOUT_DEPTH_STENCIL_ATTACHMENT_OPTIMAL then
      if env.hasStencilComponent format = true then
        VK_IMAGE_ASPECT_DEPTH_BIT ||| VK_IMAGE_ASPECT_STENCIL_BIT
      else VK_IMAGE_ASPECT_DEPTH_BIT
    else VK_IMAGE_ASPECT_COLOR_BIT
  let barrier : VkImageMemoryBarrier :=
    { oldLayout := oldLayout, newLayout := newLayout, image := image
      aspectMask := aspectMask
      baseMipLevel := 0, levelCount := mipLevels, baseArrayLayer := 0, layerCount := 1
      srcAccessMask := 0, dstAccessMask := 0 }
  let finish (barrier : VkImageMemoryBarrier) (sourceStage destinationStage : Nat) : Transfer :=
    { calls := begun ++
        [TransferCall.cmdPipelineBarrier commandBuffer sourceStage destinationStage barrier] ++
        endSingleTimeCommands commandBuffer
      status := Status.returned }
  if oldLayout = VK_IMAGE_LAYOUT_UNDEFINED ∧
      newLayout = VK_IMAGE_LAYOUT_TRANSFER_DST_OPTIMAL then
    finish { barrier with srcAccessMask := 0, dstAccessMask := VK_ACCESS_TRANSFER_WRITE_BIT }
      VK_PIPELINE_STAGE_TOP_OF_PIPE_BIT VK_PIPELINE_STAGE_TRANSFER_BIT
  else if oldLayout = VK_IMAGE_LAYOUT_TRANSFER_DST_OPTIMAL ∧
      newLayout = VK_IMAGE_LAYOUT_SHADER_READ_ONLY_OPTIMAL then
    finish { barrier with srcAccessMask := VK_ACCESS_TRANSFER_WRITE_BIT
                          dstAccessMask := VK_ACCESS_SHADER_READ_BIT }
      VK_PIPELINE_STAGE_TRANSFER_BIT VK_PIPELINE_STAGE_FRAGMENT_SHADER_BIT
  else if oldLayout = VK_IMAGE_LAYOUT_UNDEFINED ∧
      newLayout = VK_IMAGE_LAYOUT_DEPTH_STENCIL_ATTACHMENT_OPTIMAL then
    finish { barrier with
              srcAccessMask := 0
              dstAccessMask := VK_ACCESS_DEPTH_STENCIL_ATTACHMENT_READ_BIT |||
                VK_ACCESS_DEPTH_STENCIL_ATTACHMENT_WRITE_BIT }
      VK_PIPELINE_STAGE_TOP_OF_PIPE_BIT VK_PIPELINE_STAGE_EARLY_FRAGMENT_TESTS_BIT
  else
    { calls := begun, status := Status.threw "unsupported layout transition!" }

def TransferCall.isBarrier : TransferCall → Bool
  | TransferCall.cmdPipelineBarrier _ _ _ _ => true
  | _ => false

def TransferCall.isQueueSubmit : TransferCall → Bool
  | TransferCall.queueSubmit _ => true
  | _ => false

/-- The three transitions `transitionImageLayout` is meant for. -/
def recognizedTransition (oldLayout newLayout : VkImageLayout) : Prop :=
  (oldLayout = VK_IMAGE_LAYOUT_UNDEFINED ∧ newLayout = VK_IMAGE_LAYOUT_TRANSFER_DST_OPTIMAL) ∨
  (oldLayout = VK_IMAGE_LAYOUT_TRANSFER_DST_OPTIMAL ∧
    newLayout = VK_IMAGE_LAYOUT_SHADER_READ_ONLY_OPTIMAL) ∨
  (oldLayout = VK_IMAGE_LAYOUT_UNDEFINED ∧
    newLayout = VK_IMAGE_LAYOUT_DEPTH_STENCIL_ATTACHMENT_OPTIMAL)

instance (oldLayout newLayout : VkImageLayout) :
    Decidable (recognizedTransition oldLayout newLayout) := by
  unfold recognizedTransition
  infer_instance

/-- A device that hands out command buffer 91; of the formats, only 129 and
130 have a stencil component. -/
def exampleTransitionEnv : TransitionEnv :=
  { commandBuffer := 91
    hasStencilComponent := fun format => format == 129 || format == 130 }

end VulkanTest

namespace VulkanTest

/-! ## Sequencing lemmas -/

theorem andThen_of_returned {τ : Type} (o : Outcome τ) (f : Instance → Outcome τ)
    (h : o.status = Status.returned) :
    o.andThen f =
      { inst := (f o.inst).inst, trace := o.trace ++ (f o.inst).trace,
        status := (f o.inst).status } := by
  unfold Outcome.andThen
  rw [h]

theorem andThen_of_not_returned {τ : Type} (o : Outcome τ) (f : Instance → Outcome τ)
    (h : o.status ≠ Status.returned) : o.andThen f = o := by
  unfold Outcome.andThen
  split
  · contradiction
  · rfl

theorem keeps_andThen {τ : Type} {P : Instance → Prop} {f g : Instance → Outcome τ}
    (hf : Keeps P f) (hg : Keeps P g) : Keeps P (fun s => (f s).andThen g) := by
  intro s hs
  show P ((f s).andThen g).inst
  by_cases h : (f s).status = Status.returned
  · rw [andThen_of_returned _ _ h]
    exact hg _ (hf s hs)
  · rw [andThen_of_not_returned _ _ h]
    exact hf s hs

theorem keeps_forEach {τ : Type} {P : Instance → Prop} {body : Nat → Instance → Outcome τ}
    (hb : ∀ i, Keeps P (body i)) (xs : List Nat) : Keeps P (forEach body xs) := by
  induction xs with
  | nil => intro s hs; exact hs
  | cons i rest ih =>
    intro s hs
    exact keeps_andThen (hb i) ih s hs

theorem returns_andThen {τ : Type} {P Q R : Instance → Prop} {f g : Instance → Outcome τ}
    (hf : Returns P f Q) (hg : Returns Q g R) : Returns P (fun s => (f s).andThen g) R := by
  intro s hs
  obtain ⟨h1, h2⟩ := hf s hs
  show ((f s).andThen g).status = Status.returned ∧ R ((f s).andThen g).inst
  rw [andThen_of_returned _ _ h1]
  exact hg _ h2

theorem keeps_step {τ : Type} {P : Instance → Prop} (o : Outcome τ)
    {g : Instance → Outcome τ} (ho : P o.inst) (hg : Keeps P g) : P (o.andThen g).inst := by
  by_cases h : o.status = Status.returned
  · rw [andThen_of_returned _ _ h]
    exact hg _ ho
  · rw [andThen_of_not_returned _ _ h]
    exact ho

theorem returns_forEach {τ : Type} {P : Instance → Prop} {body : Nat → Instance → Outcome τ}
    (xs : List Nat) (hb : ∀ i ∈ xs, Returns P (body i) P) : Returns P (forEach body xs) P := by
  induction xs with
  | nil => intro s hs; exact ⟨rfl, hs⟩
  | cons i rest ih =>
    have h1 : Returns P (body i) P := hb i (List.mem_cons_self _ _)
    have h2 : Returns P (VulkanTest.forEach body rest) P :=
      ih (fun j hj => hb j (List.mem_cons_of_mem _ hj))
    exact returns_andThen h1 h2

theorem returns_weaken {τ : Type} {P P2 Q Q2 : Instance → Prop} {f : Instance → Outcome τ}
    (h : Returns P f Q) (hp : ∀ s, P2 s → P s) (hq : ∀ s, Q s → Q2 s) : Returns P2 f Q2 := by
  intro s hs
  exact ⟨(h s (hp s hs)).1, hq _ (h s (hp s hs)).2⟩

theorem andThen_returned_iff {τ : Type} (o : Outcome τ) (f : Instance → Outcome τ) :
    (o.andThen f).status = Status.returned ↔
      o.status = Status.returned ∧ (f o.inst).status = Status.returned := by
  by_cases h : o.status = Status.returned
  · rw [andThen_of_returned _ _ h]
    simp [h]
  · rw [andThen_of_not_returned _ _ h]
    simp [h]

theorem ensures_andThen_right {τ : Type} {Q : Instance → Prop} (f : Instance → Outcome τ)
    {g : Instance → Outcome τ} (hg : Ensures g Q) : Ensures (fun s => (f s).andThen g) Q := by
  intro s hs
  have h := (andThen_returned_iff (f s) g).1 hs
  show Q ((f s).andThen g).inst
  rw [andThen_of_returned _ _ h.1]
  exact hg _ h.2

theorem ensures_andThen_keep {τ : Type} {Q : Instance → Prop} {f g : Instance → Outcome τ}
    (hf : Ensures f Q) (hg : Keeps Q g) : Ensures (fun s => (f s).andThen g) Q := by
  intro s hs
  have h := (andThen_returned_iff (f s) g).1 hs
  show Q ((f s).andThen g).inst
  rw [andThen_of_returned _ _ h.1]
  exact hg _ (hf s h.1)

/-! ## What a rebuild leaves alone -/

theorem frozen_createResource (c : Nat) (y : Sync) (b : Bool) (r : Resource) :
    Keeps (Frozen c y b) (createResource r) := by
  intro s hs
  exact hs

theorem frozen_destroyResource (c : Nat) (y : Sync) (b : Bool) (r : Resource) :
    Keeps (Frozen c y b) (destroyResource r) := by
  intro s hs
  exact hs

theorem frozen_destroyImageViews (c : Nat) (y : Sync) (b : Bool) :
    Keeps (Frozen c y b) destroyImageViews := by
  intro s hs
  unfold destroyImageViews
  refine keeps_step _ ?_ (fun t ht => ht)
  refine keeps_forEach ?_ _ s hs
  intro i t ht
  dsimp only
  split <;> exact ht

theorem frozen_createSwapChain (c : Nat) (y : Sync) (b : Bool) (env : SwapchainEnv) :
    Keeps (Frozen c y b) (createSwapChain env) := by
  intro s hs
  unfold createSwapChain
  dsimp only
  split
  · exact hs
  · split
    · split <;> exact hs
    · exact hs

theorem frozen_createImageViews (c : Nat) (y : Sync) (b : Bool) (env : SwapchainEnv) :
    Keeps (Frozen c y b) (createImageViews env) := by
  intro s hs
  exact hs

theorem frozen_createDescriptorSets (c : Nat) (y : Sync) (b : Bool) (ds : List Handle) :
    Keeps (Frozen c y b) (createDescriptorSets ds) := by
  intro s hs
  exact hs

theorem frozen_recordBuffer (c : Nat) (y : Sync) (b : Bool) (env : CommanderEnv) (i : Nat) :
    Keeps (Frozen c y b) (recordBuffer env i) := by
  intro s hs
  unfold recordBuffer
  split
  · exact hs
  · split
    · exact hs
    · dsimp only
      split <;> exact hs

theorem frozen_createBuffers (c : Nat) (y : Sync) (b : Bool) (env : CommanderEnv) :
    Keeps (Frozen c y b) (createBuffers env) := by
  intro s hs
  unfold createBuffers
  dsimp only
  split
  · exact hs
  · exact keeps_step _ hs (keeps_forEach (frozen_recordBuffer c y b env) _)

theorem frozen_waitForExtent (c : Nat) (y : Sync) (b : Bool) (polls : List WindowPoll) :
    ∀ size, Keeps (Frozen c y b) (waitForExtent polls size) := by
  induction polls with
  | nil =>
    intro size s hs
    unfold waitForExtent
    split <;> exact hs
  | cons p rest ih =>
    intro size s hs
    unfold waitForExtent
    split
    · refine keeps_step _ ?_ (ih p.size)
      refine ⟨hs.1, hs.2.1, fun hb => ?_⟩
      simp [hs.2.2 hb]
    · exact hs

theorem frozen_cleanupSwapChain (c : Nat) (y : Sync) (b : Bool) :
    Keeps (Frozen c y b) cleanupSwapChain := by
  unfold cleanupSwapChain
  repeat first
    | exact frozen_destroyResource c y b _
    | refine keeps_andThen (frozen_destroyResource c y b _) ?_
    | refine keeps_andThen (frozen_destroyImageViews c y b) ?_

theorem frozen_recreateSwapChain (c : Nat) (y : Sync) (b : Bool) (env : RebuildEnv) :
    Keeps (Frozen c y b) (recreateSwapChain env) := by
  unfold recreateSwapChain
  refine keeps_andThen (fun t ht => ht) ?_
  refine keeps_andThen (frozen_waitForExtent c y b _ _) ?_
  refine keeps_andThen (fun t ht => ht) ?_
  refine keeps_andThen (frozen_cleanupSwapChain c y b) ?_
  refine keeps_andThen (frozen_createSwapChain c y b _) ?_
  refine keeps_andThen (frozen_createImageViews c y b _) ?_
  repeat refine keeps_andThen (frozen_createResource c y b _) ?_
  refine keeps_andThen (frozen_createDescriptorSets c y b _) ?_
  exact frozen_createBuffers c y b _

theorem frozen_rebuild (c : Nat) (y : Sync) (b : Bool) (env : RebuildEnv) :
    Keeps (Frozen c y b) (rebuild env) := by
  intro s hs
  exact frozen_recreateSwapChain c y b env s hs

/-! ## When a rebuild runs to its end -/

theorem returns_waitForExtent (polls : List WindowPoll) :
    ∀ size, (nonDegenerate size ∨ ∃ p ∈ polls, nonDegenerate p.size) →
      Returns ViewsOk (waitForExtent polls size) ViewsOk := by
  induction polls with
  | nil =>
    intro size h s hs
    have hnd : nonDegenerate size := by
      rcases h with h | ⟨p, hp, _⟩
      · exact h
      · cases hp
    unfold waitForExtent
    rw [if_neg (by intro hc; rcases hc with hc | hc; exact hnd.1 hc; exact hnd.2 hc)]
    exact ⟨rfl, hs⟩
  | cons p rest ih =>
    intro size h s hs
    unfold waitForExtent
    by_cases hd : size.1 = 0 ∨ size.2 = 0
    · rw [if_pos hd]
      have hnext : nonDegenerate p.size ∨ ∃ q ∈ rest, nonDegenerate q.size := by
        rcases h with h | ⟨q, hq, hqn⟩
        · exact absurd hd (by intro hc; rcases hc with hc | hc; exact h.1 hc; exact h.2 hc)
        · rcases List.mem_cons.1 hq with rfl | hq
          · exact Or.inl hqn
          · exact Or.inr ⟨q, hq, hqn⟩
      rw [andThen_of_returned _ _ rfl]
      exact ih p.size hnext _ hs
    · rw [if_neg hd]
      exact ⟨rfl, hs⟩

theorem returns_destroyImageViews :
    Returns ViewsOk destroyImageViews (fun _ => True) := by
  intro s hs
  unfold destroyImageViews
  have hloop : Returns (fun t => t.surface = s.surface)
      (forEach (fun i st =>
        match st.surface.swapChainImageViews.get? i with
        | some view =>
          ({ inst := st, trace := [Call.destroyImageView view], status := Status.returned } :
            Outcome Call)
        | none => { inst := st, trace := [], status := Status.undefined })
        (List.range (s.surface.swapChainImages.length % 2 ^ 32)))
      (fun t => t.surface = s.surface) := by
    refine returns_forEach _ ?_
    intro i hi t ht
    have hlt : i < t.surface.swapChainImageViews.length := by
      rw [ht]
      have h1 := List.mem_range.1 hi
      have h2 := Nat.mod_le s.surface.swapChainImages.length (2 ^ 32)
      have h3 : s.surface.swapChainImages.length ≤ s.surface.swapChainImageViews.length := hs
      omega
    dsimp only
    rw [List.get?_eq_get hlt]
    exact ⟨rfl, ht⟩
  have h := hloop s rfl
  dsimp only
  rw [andThen_of_returned _ _ h.1]
  exact ⟨rfl, trivial⟩

theorem returns_cleanupSwapChain : Returns ViewsOk cleanupSwapChain (fun _ => True) := by
  unfold cleanupSwapChain
  refine returns_andThen (Q := ViewsOk) (fun s hs => ⟨rfl, hs⟩) ?_
  refine returns_andThen (Q := ViewsOk) (fun s hs => ⟨rfl, hs⟩) ?_
  refine returns_andThen (Q := ViewsOk) (fun s hs => ⟨rfl, hs⟩) ?_
  refine returns_andThen (Q := ViewsOk) (fun s hs => ⟨rfl, hs⟩) ?_
  refine returns_andThen (Q := ViewsOk) (fun s hs => ⟨rfl, hs⟩) ?_
  refine returns_andThen (Q := ViewsOk) (fun s hs => ⟨rfl, hs⟩) ?_
  refine returns_andThen (Q := fun _ => True) returns_destroyImageViews ?_
  refine returns_andThen (Q := fun _ => True) (fun s _ => ⟨rfl, trivial⟩) ?_
  refine returns_andThen (Q := fun _ => True) (fun s _ => ⟨rfl, trivial⟩) ?_
  exact fun s _ => ⟨rfl, trivial⟩

theorem chooseSwapSurfaceFormat_isSome (formats : List VkSurfaceFormatKHR) (h : formats ≠ []) :
    ∃ f, chooseSwapSurfaceFormat formats = some f := by
  unfold chooseSwapSurfaceFormat
  split
  · exact ⟨_, rfl⟩
  · cases formats with
    | nil => exact absurd rfl h
    | cons f rest => exact ⟨f, rfl⟩

theorem returns_createSwapChain (env : SwapchainEnv) (hformats : env.support.formats ≠ [])
    (hg : env.graphicsFamily.isSome = true) (hp : env.presentFamily.isSome = true)
    (hc : env.createResult = VK_SUCCESS) :
    Returns (fun _ => True) (createSwapChain env)
      (fun t => t.surface.swapChainImages = env.images) := by
  intro s _
  obtain ⟨f, hf⟩ := chooseSwapSurfaceFormat_isSome _ hformats
  obtain ⟨g, hg⟩ := Option.isSome_iff_exists.1 hg
  obtain ⟨p, hp⟩ := Option.isSome_iff_exists.1 hp
  unfold createSwapChain
  simp only [hf, hg, hp, hc]
  exact ⟨rfl, rfl⟩

theorem returns_createImageViews (env : SwapchainEnv) :
    Returns (fun t => t.surface.swapChainImages = env.images) (createImageViews env)
      (fun t => t.surface.swapChainImageViews.length = env.images.length) := by
  intro s hs
  refine ⟨rfl, ?_⟩
  show (s.surface.swapChainImages.map env.imageView).length = env.images.length
  rw [List.length_map, hs]

theorem returns_recordBuffer (env : CommanderEnv) (ds : List Handle) (i : Nat)
    (hi : i < ds.length) (hb : env.beginResult i = VK_SUCCESS)
    (he : env.endResult i = VK_SUCCESS) :
    Returns (fun t => t.descriptor.descriptorSets = ds) (recordBuffer env i)
      (fun t => t.descriptor.descriptorSets = ds) := by
  intro s hs
  have hlt : i < s.descriptor.descriptorSets.length := by rw [hs]; exact hi
  unfold recordBuffer
  rw [if_neg (by simp [hb]), List.get?_eq_get hlt]
  dsimp only
  rw [if_neg (by simp [he])]
  exact ⟨rfl, hs⟩

theorem returns_createBuffers (env : CommanderEnv) (ds : List Handle) (n : Nat)
    (hn : n ≤ ds.length) (ha : env.allocateResult = VK_SUCCESS)
    (hb : ∀ i, env.beginResult i = VK_SUCCESS) (he : ∀ i, env.endResult i = VK_SUCCESS) :
    Returns
      (fun t => t.surface.swapChainImageViews.length = n ∧ t.descriptor.descriptorSets = ds)
      (createBuffers env) (fun _ => True) := by
  intro s hs
  have hloop : Returns (fun t => t.descriptor.descriptorSets = ds)
      (forEach (recordBuffer env) (List.range (getSwapChainSize s)))
      (fun t => t.descriptor.descriptorSets = ds) := by
    refine returns_forEach _ ?_
    intro i hi
    have h1 := List.mem_range.1 hi
    have h2 : getSwapChainSize s ≤ n := by
      unfold getSwapChainSize
      rw [hs.1]
      exact Nat.mod_le _ _
    exact returns_recordBuffer env ds i (by omega) (hb i) (he i)
  unfold createBuffers
  dsimp only
  rw [if_neg (by simp [ha]), andThen_of_returned _ _ rfl]
  refine ⟨(hloop _ ?_).1, trivial⟩
  exact hs.2

theorem returns_recreateSwapChain (env : RebuildEnv)
    (hext : nonDegenerate env.initialSize ∨ ∃ p ∈ env.polls, nonDegenerate p.size)
    (hformats : env.swapchain.support.formats ≠ [])
    (hsets : env.swapchain.images.length ≤ env.descriptorSets.length)
    (hacc : NoRejection env) :
    Returns ViewsOk (recreateSwapChain env) (fun _ => True) := by
  unfold recreateSwapChain
  refine returns_andThen (Q := ViewsOk) (fun s hs => ⟨rfl, hs⟩) ?_
  refine returns_andThen (Q := ViewsOk) (returns_waitForExtent _ _ hext) ?_
  refine returns_andThen (Q := ViewsOk) (fun s hs => ⟨rfl, hs⟩) ?_
  refine returns_andThen (Q := fun _ => True) returns_cleanupSwapChain ?_
  refine returns_andThen
    (returns_createSwapChain _ hformats hacc.graphicsFamily hacc.presentFamily hacc.created) ?_
  refine returns_andThen (returns_createImageViews _) ?_
  refine returns_andThen
    (Q := fun t => t.surface.swapChainImageViews.length = env.swapchain.images.length)
    (fun s hs => ⟨rfl, hs⟩) ?_
  refine returns_andThen
    (Q := fun t => t.surface.swapChainImageViews.length = env.swapchain.images.length)
    (fun s hs => ⟨rfl, hs⟩) ?_
  refine returns_andThen
    (Q := fun t => t.surface.swapChainImageViews.length = env.swapchain.images.length)
    (fun s hs => ⟨rfl, hs⟩) ?_
  refine returns_andThen
    (Q := fun t => t.surface.swapChainImageViews.length = env.swapchain.images.length)
    (fun s hs => ⟨rfl, hs⟩) ?_
  refine returns_andThen
    (Q := fun t => t.surface.swapChainImageViews.length = env.swapchain.images.length)
    (fun s hs => ⟨rfl, hs⟩) ?_
  refine returns_andThen
    (Q := fun t => t.surface.swapChainImageViews.length = env.swapchain.images.length)
    (fun s hs => ⟨rfl, hs⟩) ?_
  refine returns_andThen
    (Q := fun t => t.surface.swapChainImageViews.length = env.swapchain.images.length ∧
      t.descriptor.descriptorSets = env.descriptorSets)
    (fun s hs => ⟨rfl, hs, rfl⟩) ?_
  exact returns_createBuffers _ _ _ hsets hacc.allocated hacc.begun hacc.ended

theorem recreateSwapChain_returns (env : RebuildEnv) (s : Instance) (h : RebuildOk env s) :
    (recreateSwapChain env s).status = Status.returned :=
  (returns_recreateSwapChain env h.extent h.formats h.sets h.accepted s h.views).1

/-! ## The paths through `drawFrame` -/

theorem drawFrame_of_out_of_date (F : Nat) (env : FrameEnv) (s : Instance)
    (fence semaphore : Handle)
    (hfence : s.sync.inFlightFences.get? s.currentFrame = some fence)
    (hsem : s.sync.imageAvailableSemaphores.get? s.currentFrame = some semaphore)
    (hacq : env.acquireResult = VK_ERROR_OUT_OF_DATE_KHR) :
    drawFrame F env s =
      { inst := (recreateSwapChain env.rebuild s).inst
        trace := [FrameCall.waitForFences fence, FrameCall.acquireNextImage semaphore,
          FrameCall.recreateSwapChain (recreateSwapChain env.rebuild s).trace]
        status := (recreateSwapChain env.rebuild s).status } := by
  unfold drawFrame
  simp only [hfence, hsem]
  rw [if_pos hacq, andThen_of_returned _ _ rfl]
  rfl

theorem drawFrame_of_acquire_error (F : Nat) (env : FrameEnv) (s : Instance)
    (fence semaphore : Handle)
    (hfence : s.sync.inFlightFences.get? s.currentFrame = some fence)
    (hsem : s.sync.imageAvailableSemaphores.get? s.currentFrame = some semaphore)
    (h1 : env.acquireResult ≠ VK_ERROR_OUT_OF_DATE_KHR)
    (h2 : env.acquireResult ≠ VK_SUCCESS) (h3 : env.acquireResult ≠ VK_SUBOPTIMAL_KHR) :
    drawFrame F env s =
      { inst := s
        trace := [FrameCall.waitForFences fence, FrameCall.acquireNextImage semaphore]
        status := Status.threw "failed to acquire swap chain image!" } := by
  unfold drawFrame
  simp only [hfence, hsem]
  rw [if_neg h1, if_pos ⟨h2, h3⟩]

theorem drawFrame_of_usable (F : Nat) (env : FrameEnv) (s : Instance)
    (fence semaphore owner : Handle)
    (hfence : s.sync.inFlightFences.get? s.currentFrame = some fence)
    (hsem : s.sync.imageAvailableSemaphores.get? s.currentFrame = some semaphore)
    (hacq : usable env.acquireResult)
    (howner : s.sync.imagesInFlight.get? env.imageIndex = some owner) :
    drawFrame F env s =
      match s.commander.buffers.get? env.imageIndex,
            s.sync.renderFinishedSemaphores.get? s.currentFrame with
      | some commandBuffer, some renderFinished =>
        if env.submitResult ≠ VK_SUCCESS then
          { inst := s.claim env.imageIndex fence
            trace := stepsToSubmit fence semaphore owner env.imageIndex commandBuffer
              renderFinished
            status := Status.threw "failed to submit draw command buffer!" }
        else if env.acquireResult = VK_SUBOPTIMAL_KHR ∨ s.framebufferResized = true then
          (({ inst := s.claim env.imageIndex fence
              trace := stepsToPresent fence semaphore owner env.imageIndex commandBuffer
                renderFinished
              status := Status.returned } : Outcome FrameCall).andThen
            (rebuild env.rebuild)).andThen (advanceFrame F)
        else
          { inst := { s.claim env.imageIndex fence with
                      currentFrame := (s.currentFrame + 1) % F }
            trace := stepsToPresent fence semaphore owner env.imageIndex commandBuffer
              renderFinished
            status := Status.returned }
      | _, _ =>
        { inst := s.claim env.imageIndex fence
          trace := stepsToImageWait fence semaphore owner env.imageIndex
          status := Status.undefined } := by
  have h1 : env.acquireResult ≠ VK_ERROR_OUT_OF_DATE_KHR := by
    rcases hacq with h | h <;> rw [h] <;> decide
  have h2 : ¬ (env.acquireResult ≠ VK_SUCCESS ∧ env.acquireResult ≠ VK_SUBOPTIMAL_KHR) := by
    rcases hacq with h | h <;> simp [h]
  unfold drawFrame
  simp only [hfence, hsem, howner]
  rw [if_neg h1, if_neg h2]
  cases hb : s.commander.buffers.get? env.imageIndex with
  | none => rfl
  | some commandBuffer =>
    cases hr : s.sync.renderFinishedSemaphores.get? s.currentFrame with
    | none => rfl
    | some renderFinished =>
      dsimp only
      by_cases hsub : env.submitResult = VK_SUCCESS
      · have hs2 : ¬ (env.submitResult ≠ VK_SUCCESS) := fun h => h hsub
        simp only [if_neg hs2]
        by_cases hre : env.acquireResult = VK_SUBOPTIMAL_KHR ∨ s.framebufferResized = true
        · have h3 : env.acquireResult = VK_ERROR_OUT_OF_DATE_KHR ∨
              env.acquireResult = VK_SUBOPTIMAL_KHR ∨ s.framebufferResized = true := Or.inr hre
          simp only [if_pos hre, if_pos h3]
          rfl
        · have h3 : ¬ (env.acquireResult = VK_ERROR_OUT_OF_DATE_KHR ∨
              env.acquireResult = VK_SUBOPTIMAL_KHR ∨ s.framebufferResized = true) := by
            intro h
            rcases h with h | h
            · exact h1 h
            · exact hre h
          have h4 : ¬ (env.acquireResult ≠ VK_SUCCESS) := by
            intro h
            rcases hacq with h5 | h5
            · exact h h5
            · exact hre (Or.inl h5)
          simp only [if_neg hre, if_neg h3, if_neg h4]
          rw [andThen_of_returned _ _ rfl]
          simp [done, Instance.claim, stepsToPresent, stepsToSubmit, stepsToImageWait,
            stepsToAcquire, imageWait]
      · have hs2 : env.submitResult ≠ VK_SUCCESS := hsub
        simp only [if_pos hs2]
        rfl

/-! ## C1, C2: rebuild at the acquire step and at the present step -/

theorem exampleRebuildOk (b : Bool) :
    RebuildOk (exampleRebuildEnv VK_SUCCESS [41, 42, 43]) (exampleInstance b) :=
  { extent := Or.inl ⟨by decide, by decide⟩
    views := by cases b <;> decide
    formats := by decide
    sets := by decide
    accepted :=
      { graphicsFamily := rfl, presentFamily := rfl, created := rfl, allocated := rfl
        begun := fun _ => rfl, ended := fun _ => rfl } }

/-- C1: a frame whose acquire reports out-of-date issues the slot wait and
the acquire, calls `recreateSwapChain` exactly once and nothing else: no fence
is reset, nothing is submitted, nothing is presented, and the image-in-flight
table and the frame counter are what they were.  The frame ends as the rebuild
ends, so it returns whenever the rebuild runs to its end. -/
theorem drawFrame_out_of_date (F : Nat) (env : FrameEnv) (s : Instance)
    (fence semaphore : Handle)
    (hfence : s.sync.inFlightFences.get? s.currentFrame = some fence)
    (hsem : s.sync.imageAvailableSemaphores.get? s.currentFrame = some semaphore)
    (hacq : env.acquireResult = VK_ERROR_OUT_OF_DATE_KHR) :
    (drawFrame F env s).trace =
        [FrameCall.waitForFences fence, FrameCall.acquireNextImage semaphore,
          FrameCall.recreateSwapChain (recreateSwapChain env.rebuild s).trace] ∧
      (drawFrame F env s).trace.countP FrameCall.isRebuild = 1 ∧
      (drawFrame F env s).trace.countP FrameCall.isFenceReset = 0 ∧
      (drawFrame F env s).trace.countP FrameCall.isSubmit = 0 ∧
      (drawFrame F env s).trace.countP FrameCall.isPresent = 0 ∧
      (drawFrame F env s).inst.sync.imagesInFlight = s.sync.imagesInFlight ∧
      (drawFrame F env s).inst.currentFrame = s.currentFrame ∧
      (drawFrame F env s).status = (recreateSwapChain env.rebuild s).status ∧
      (RebuildOk env.rebuild s → (drawFrame F env s).status = Status.returned) := by
  have hfrozen := frozen_recreateSwapChain s.currentFrame s.sync false env.rebuild s
    ⟨rfl, rfl, by simp⟩
  rw [drawFrame_of_out_of_date F env s fence semaphore hfence hsem hacq]
  refine ⟨rfl, rfl, rfl, rfl, rfl, ?_, hfrozen.1, rfl, ?_⟩
  · show (recreateSwapChain env.rebuild s).inst.sync.imagesInFlight = s.sync.imagesInFlight
    rw [hfrozen.2.1]
  · intro hok
    exact recreateSwapChain_returns env.rebuild s hok

theorem drawFrame_out_of_date_witness :
    (exampleInstance false).sync.inFlightFences.get? (exampleInstance false).currentFrame =
        some 11 ∧
      (exampleFrameEnv VK_ERROR_OUT_OF_DATE_KHR 1 VK_SUCCESS VK_SUCCESS).acquireResult =
        VK_ERROR_OUT_OF_DATE_KHR ∧
      (drawFrame 2 (exampleFrameEnv VK_ERROR_OUT_OF_DATE_KHR 1 VK_SUCCESS VK_SUCCESS)
        (exampleInstance false)).trace.countP FrameCall.isRebuild = 1 ∧
      (drawFrame 2 (exampleFrameEnv VK_ERROR_OUT_OF_DATE_KHR 1 VK_SUCCESS VK_SUCCESS)
        (exampleInstance false)).status = Status.returned :=
  have h := drawFrame_out_of_date 2
    (exampleFrameEnv VK_ERROR_OUT_OF_DATE_KHR 1 VK_SUCCESS VK_SUCCESS) (exampleInstance false)
    11 21 rfl rfl rfl
  ⟨rfl, rfl, h.2.1, h.2.2.2.2.2.2.2.2 (exampleRebuildOk false)⟩

/-- C2: the value returned by `vkQueuePresentKHR` is dropped, and the decision
to rebuild after presenting is taken on the acquire result and the resize
flag.  A present that reports out-of-date after a successful acquire triggers
no rebuild, a successful present after a suboptimal acquire does, and no
present result changes what `drawFrame` does. -/
theorem drawFrame_ignores_present_result :
    ((drawFrame 2 (exampleFrameEnv VK_SUCCESS 1 VK_SUCCESS VK_ERROR_OUT_OF_DATE_KHR)
        (exampleInstance false)).status = Status.returned ∧
      (drawFrame 2 (exampleFrameEnv VK_SUCCESS 1 VK_SUCCESS VK_ERROR_OUT_OF_DATE_KHR)
        (exampleInstance false)).trace.countP FrameCall.isPresent = 1 ∧
      (drawFrame 2 (exampleFrameEnv VK_SUCCESS 1 VK_SUCCESS VK_ERROR_OUT_OF_DATE_KHR)
        (exampleInstance false)).trace.countP FrameCall.isRebuild = 0) ∧
    ((drawFrame 2 (exampleFrameEnv VK_SUBOPTIMAL_KHR 1 VK_SUCCESS VK_SUCCESS)
        (exampleInstance false)).trace.countP FrameCall.isPresent = 1 ∧
      (drawFrame 2 (exampleFrameEnv VK_SUBOPTIMAL_KHR 1 VK_SUCCESS VK_SUCCESS)
        (exampleInstance false)).trace.countP FrameCall.isRebuild = 1) ∧
    (∀ (F : Nat) (env : FrameEnv) (s : Instance) (presentResult : VkResult),
      drawFrame F { env with presentResult := presentResult } s = drawFrame F env s) :=
  ⟨by decide, by decide, fun _ _ _ _ => rfl⟩

theorem drawFrame_of_no_slot (F : Nat) (env : FrameEnv) (s : Instance)
    (h : s.sync.inFlightFences.get? s.currentFrame = none ∨
      s.sync.imageAvailableSemaphores.get? s.currentFrame = none) :
    drawFrame F env s = { inst := s, trace := [], status := Status.undefined } := by
  unfold drawFrame
  cases hf : s.sync.inFlightFences.get? s.currentFrame with
  | none => rfl
  | some fence =>
    cases hs : s.sync.imageAvailableSemaphores.get? s.currentFrame with
    | none => rfl
    | some semaphore =>
      rw [hf, hs] at h
      simp at h

theorem drawFrame_of_no_owner (F : Nat) (env : FrameEnv) (s : Instance)
    (fence semaphore : Handle)
    (hfence : s.sync.inFlightFences.get? s.currentFrame = some fence)
    (hsem : s.sync.imageAvailableSemaphores.get? s.currentFrame = some semaphore)
    (hacq : usable env.acquireResult)
    (howner : s.sync.imagesInFlight.get? env.imageIndex = none) :
    drawFrame F env s =
      { inst := s, trace := stepsToAcquire fence semaphore, status := Status.undefined } := by
  have h1 : env.acquireResult ≠ VK_ERROR_OUT_OF_DATE_KHR := by
    rcases hacq with h | h <;> rw [h] <;> decide
  have h2 : ¬ (env.acquireResult ≠ VK_SUCCESS ∧ env.acquireResult ≠ VK_SUBOPTIMAL_KHR) := by
    rcases hacq with h | h <;> simp [h]
  unfold drawFrame
  simp only [hfence, hsem, howner]
  rw [if_neg h1, if_neg h2]
  rfl

theorem usable_or_error (result : VkResult) :
    usable result ∨ (result ≠ VK_SUCCESS ∧ result ≠ VK_SUBOPTIMAL_KHR) := by
  by_cases h2 : result = VK_SUCCESS
  · exact Or.inl (Or.inl h2)
  · by_cases h3 : result = VK_SUBOPTIMAL_KHR
    · exact Or.inl (Or.inr h3)
    · exact Or.inr ⟨h2, h3⟩

/-! ## C3: the frame counter -/

theorem keeps_counter {f : Instance → Outcome Call}
    (h : ∀ c y b, Keeps (Frozen c y b) f) (c : Nat) :
    Keeps (fun t => t.currentFrame = c) f :=
  fun s hs => (h c s.sync false s ⟨hs, rfl, by simp⟩).1

theorem counter_createInstance (env : CreateEnv) (c : Nat) :
    Keeps (fun t => t.currentFrame = c) (createInstance env) := by
  intro s hs
  unfold createInstance
  split
  · exact hs
  · split <;> exact hs

theorem counter_setupDebugMessenger (env : CreateEnv) (c : Nat) :
    Keeps (fun t => t.currentFrame = c) (setupDebugMessenger env) := by
  intro s hs
  unfold setupDebugMessenger
  split
  · exact hs
  · split <;> exact hs

theorem counter_createSurface (env : CreateEnv) (c : Nat) :
    Keeps (fun t => t.currentFrame = c) (createSurface env) := by
  intro s hs
  unfold createSurface
  split <;> exact hs

theorem counter_pickPhysicalDevice (env : CreateEnv) (c : Nat) :
    Keeps (fun t => t.currentFrame = c) (pickPhysicalDevice env) := by
  intro s hs
  unfold pickPhysicalDevice
  split
  · exact hs
  · dsimp only
    split <;> exact hs

theorem counter_createLogicalDevice (env : CreateEnv) (c : Nat) :
    Keeps (fun t => t.currentFrame = c) (createLogicalDevice env) := by
  intro s hs
  unfold createLogicalDevice
  split
  · split <;> exact hs
  · exact hs

theorem counter_createPool (env : CreateEnv) (c : Nat) :
    Keeps (fun t => t.currentFrame = c) (createPool env) := by
  intro s hs
  unfold createPool
  split
  · split <;> exact hs
  · exact hs

theorem counter_createSyncObjects (F : Nat) (env : CreateEnv) (c : Nat) :
    Keeps (fun t => t.currentFrame = c) (createSyncObjects F env) := by
  intro s hs
  exact hs

theorem andThen_sets_right {τ : Type} {P : Instance → Prop} {f g : Instance → Outcome τ}
    (hf : ∀ s, (f s).status = Status.returned) (hg : ∀ s, P (g s).inst) :
    ∀ s, P ((f s).andThen g).inst := by
  intro s
  rw [andThen_of_returned _ _ (hf s)]
  exact hg _

theorem andThen_sets_left {τ : Type} {P : Instance → Prop} {f g : Instance → Outcome τ}
    (hf : ∀ s, P (f s).inst) (hg : Keeps P g) : ∀ s, P ((f s).andThen g).inst :=
  fun s => keeps_step _ (hf s) hg

theorem create_currentFrame (F : Nat) (enableValidationLayers : Bool) (env : CreateEnv) :
    ∀ s, (create F enableValidationLayers env s).inst.currentFrame = 0 := by
  unfold create
  refine andThen_sets_right (P := fun t => t.currentFrame = 0) (fun _ => rfl) ?_
  refine andThen_sets_right (P := fun t => t.currentFrame = 0) (fun _ => rfl) ?_
  refine andThen_sets_left (P := fun t => t.currentFrame = 0) (fun _ => rfl) ?_
  refine keeps_andThen (counter_createInstance env 0) ?_
  refine keeps_andThen (counter_setupDebugMessenger env 0) ?_
  refine keeps_andThen (counter_createSurface env 0) ?_
  refine keeps_andThen (counter_pickPhysicalDevice env 0) ?_
  refine keeps_andThen (counter_createLogicalDevice env 0) ?_
  refine keeps_andThen (keeps_counter (fun c y b => frozen_createSwapChain c y b _) 0) ?_
  refine keeps_andThen (keeps_counter (fun c y b => frozen_createImageViews c y b _) 0) ?_
  refine keeps_andThen (keeps_counter (fun c y b => frozen_createResource c y b _) 0) ?_
  refine keeps_andThen (keeps_counter (fun c y b => frozen_createResource c y b _) 0) ?_
  refine keeps_andThen (keeps_counter (fun c y b => frozen_createResource c y b _) 0) ?_
  refine keeps_andThen (counter_createPool env 0) ?_
  repeat refine keeps_andThen (keeps_counter (fun c y b => frozen_createResource c y b _) 0) ?_
  refine keeps_andThen (keeps_counter (fun c y b => frozen_createDescriptorSets c y b _) 0) ?_
  refine keeps_andThen (keeps_counter (fun c y b => frozen_createBuffers c y b _) 0) ?_
  exact counter_createSyncObjects F env 0

theorem andThen_advanceFrame (F : Nat) (o : Outcome FrameCall) :
    (o.andThen (advanceFrame F)).trace = o.trace ∧
      (o.andThen (advanceFrame F)).status = o.status ∧
      (o.andThen (advanceFrame F)).inst.sync = o.inst.sync ∧
      (o.andThen (advanceFrame F)).inst.framebufferResized = o.inst.framebufferResized ∧
      (o.status = Status.returned →
        (o.andThen (advanceFrame F)).inst.currentFrame = (o.inst.currentFrame + 1) % F) := by
  by_cases h : o.status = Status.returned
  · rw [andThen_of_returned _ _ h]
    exact ⟨by simp [advanceFrame, done], h.symm, rfl, rfl, fun _ => rfl⟩
  · rw [andThen_of_not_returned _ _ h]
    exact ⟨rfl, rfl, rfl, rfl, fun h2 => absurd h2 h⟩

theorem rebuild_after (env : RebuildEnv) (s1 : Instance) (t : List FrameCall) :
    ({ inst := s1, trace := t, status := Status.returned } : Outcome FrameCall).andThen
        (rebuild env) =
      { inst := (recreateSwapChain env s1).inst
        trace := t ++ [FrameCall.recreateSwapChain (recreateSwapChain env s1).trace]
        status := (recreateSwapChain env s1).status } := by
  rw [andThen_of_returned _ _ rfl]
  rfl

theorem present_rebuild (F : Nat) (env : RebuildEnv) (s1 : Instance) (t : List FrameCall) :
    ((({ inst := s1, trace := t, status := Status.returned } : Outcome FrameCall).andThen
        (rebuild env)).andThen (advanceFrame F)).trace =
        t ++ [FrameCall.recreateSwapChain (recreateSwapChain env s1).trace] ∧
      ((({ inst := s1, trace := t, status := Status.returned } : Outcome FrameCall).andThen
        (rebuild env)).andThen (advanceFrame F)).status = (recreateSwapChain env s1).status ∧
      ((({ inst := s1, trace := t, status := Status.returned } : Outcome FrameCall).andThen
        (rebuild env)).andThen (advanceFrame F)).inst.sync = s1.sync ∧
      (s1.framebufferResized = true →
        ((({ inst := s1, trace := t, status := Status.returned } : Outcome FrameCall).andThen
          (rebuild env)).andThen (advanceFrame F)).inst.framebufferResized = true) ∧
      ((recreateSwapChain env s1).status = Status.returned →
        ((({ inst := s1, trace := t, status := Status.returned } : Outcome FrameCall).andThen
          (rebuild env)).andThen (advanceFrame F)).inst.currentFrame =
          (s1.currentFrame + 1) % F) := by
  have hfrozen := frozen_recreateSwapChain s1.currentFrame s1.sync s1.framebufferResized env s1
    ⟨rfl, rfl, fun h => h⟩
  rw [rebuild_after]
  obtain ⟨h1, h2, h3, h4, h5⟩ := andThen_advanceFrame F
    { inst := (recreateSwapChain env s1).inst
      trace := t ++ [FrameCall.recreateSwapChain (recreateSwapChain env s1).trace]
      status := (recreateSwapChain env s1).status }
  refine ⟨h1, h2, h3.trans hfrozen.2.1, fun hb => h4.trans (hfrozen.2.2 hb), fun hR => ?_⟩
  rw [h5 hR]
  show ((recreateSwapChain env s1).inst.currentFrame + 1) % F = (s1.currentFrame + 1) % F
  rw [hfrozen.1]

/-- C3, counterexample: with the resize flag set, a frame whose acquire and
present succeed rebuilds at the present step, returns normally, and leaves the
frame counter at 1, not at the 0 it started from. -/
theorem frame_counter_advances_on_present_rebuild :
    (exampleInstance true).currentFrame = 0 ∧
      (drawFrame 2 (exampleFrameEnv VK_SUCCESS 1 VK_SUCCESS VK_SUCCESS)
        (exampleInstance true)).status = Status.returned ∧
      (drawFrame 2 (exampleFrameEnv VK_SUCCESS 1 VK_SUCCESS VK_SUCCESS)
        (exampleInstance true)).trace.countP FrameCall.isRebuild = 1 ∧
      (drawFrame 2 (exampleFrameEnv VK_SUCCESS 1 VK_SUCCESS VK_SUCCESS)
        (exampleInstance true)).inst.currentFrame = 1 ∧
      (drawFrame 2 (exampleFrameEnv VK_SUCCESS 1 VK_SUCCESS VK_SUCCESS)
        (exampleInstance true)).inst.currentFrame ≠ (exampleInstance true).currentFrame := by
  decide

/-- C3 (amended): `create` leaves the frame counter at 0; a call of `drawFrame`
from a counter `c < F` that returns normally leaves it at `c` when the acquire
reported out-of-date (the rebuild at the acquire step), and at `(c + 1) % F` in
every other case, in which the frame was submitted and presented, whether or
not a rebuild followed the present; the counter stays below `F`. -/
theorem frame_counter (F : Nat) (env : FrameEnv) (s : Instance)
    (hc : s.currentFrame < F)
    (hret : (drawFrame F env s).status = Status.returned) :
    (∀ enableValidationLayers cenv s0,
        (create F enableValidationLayers cenv s0).inst.currentFrame = 0) ∧
      (env.acquireResult = VK_ERROR_OUT_OF_DATE_KHR →
        (drawFrame F env s).inst.currentFrame = s.currentFrame) ∧
      (env.acquireResult ≠ VK_ERROR_OUT_OF_DATE_KHR →
        (drawFrame F env s).inst.currentFrame = (s.currentFrame + 1) % F ∧
        (drawFrame F env s).trace.countP FrameCall.isSubmit = 1 ∧
        (drawFrame F env s).trace.countP FrameCall.isPresent = 1) ∧
      (drawFrame F env s).inst.currentFrame < F := by
  have hF : 0 < F := by omega
  have hmod : (s.currentFrame + 1) % F < F := Nat.mod_lt _ hF
  refine ⟨fun b cenv s0 => create_currentFrame F b cenv s0, ?_⟩
  cases hfence : s.sync.inFlightFences.get? s.currentFrame with
  | none =>
    rw [drawFrame_of_no_slot F env s (Or.inl hfence)] at hret
    cases hret
  | some fence =>
  cases hsem : s.sync.imageAvailableSemaphores.get? s.currentFrame with
  | none =>
    rw [drawFrame_of_no_slot F env s (Or.inr hsem)] at hret
    cases hret
  | some semaphore =>
  by_cases hood : env.acquireResult = VK_ERROR_OUT_OF_DATE_KHR
  · have hsame : (drawFrame F env s).inst.currentFrame = s.currentFrame := by
      rw [drawFrame_of_out_of_date F env s fence semaphore hfence hsem hood]
      exact (frozen_recreateSwapChain s.currentFrame s.sync false env.rebuild s
        ⟨rfl, rfl, by simp⟩).1
    exact ⟨fun _ => hsame, fun hn => absurd hood hn, by rw [hsame]; exact hc⟩
  · rcases usable_or_error env.acquireResult with hus | herr
    · cases howner : s.sync.imagesInFlight.get? env.imageIndex with
      | none =>
        rw [drawFrame_of_no_owner F env s fence semaphore hfence hsem hus howner] at hret
        cases hret
      | some owner =>
        rw [drawFrame_of_usable F env s fence semaphore owner hfence hsem hus howner] at hret ⊢
        cases hb : s.commander.buffers.get? env.imageIndex with
        | none =>
          rw [hb] at hret
          cases hret
        | some commandBuffer =>
        cases hr : s.sync.renderFinishedSemaphores.get? s.currentFrame with
        | none =>
          rw [hb, hr] at hret
          cases hret
        | some renderFinished =>
        rw [hb, hr] at hret
        dsimp only at hret ⊢
        by_cases hsub : env.submitResult ≠ VK_SUCCESS
        · rw [if_pos hsub] at hret
          cases hret
        · rw [if_neg hsub] at hret ⊢
          by_cases hre : env.acquireResult = VK_SUBOPTIMAL_KHR ∨ s.framebufferResized = true
          · rw [if_pos hre] at hret ⊢
            have h := present_rebuild F env.rebuild (s.claim env.imageIndex fence)
              (stepsToPresent fence semaphore owner env.imageIndex commandBuffer renderFinished)
            have hnew := h.2.2.2.2 (h.2.1 ▸ hret)
            refine ⟨fun h0 => absurd h0 hood, fun _ => ⟨hnew, ?_, ?_⟩, by rw [hnew]; exact hmod⟩
            · rw [h.1]
              simp [stepsToPresent, stepsToSubmit, stepsToImageWait, stepsToAcquire, imageWait,
                FrameCall.isSubmit]
            · rw [h.1]
              simp [stepsToPresent, stepsToSubmit, stepsToImageWait, stepsToAcquire, imageWait,
                FrameCall.isPresent]
          · rw [if_neg hre]
            refine ⟨fun h0 => absurd h0 hood, fun _ => ⟨rfl, ?_, ?_⟩, hmod⟩
            · simp [stepsToPresent, stepsToSubmit, stepsToImageWait, stepsToAcquire, imageWait,
                FrameCall.isSubmit]
            · simp [stepsToPresent, stepsToSubmit, stepsToImageWait, stepsToAcquire, imageWait,
                FrameCall.isPresent]
    · rw [drawFrame_of_acquire_error F env s fence semaphore hfence hsem hood herr.1 herr.2]
        at hret
      cases hret

theorem frame_counter_witness :
    (exampleInstance false).currentFrame < 2 ∧
      (drawFrame 2 (exampleFrameEnv VK_SUCCESS 1 VK_SUCCESS VK_SUCCESS)
        (exampleInstance false)).status = Status.returned ∧
      (drawFrame 2 (exampleFrameEnv VK_SUCCESS 1 VK_SUCCESS VK_SUCCESS)
        (exampleInstance false)).inst.currentFrame = 1 ∧
      (drawFrame 2 (exampleFrameEnv VK_SUCCESS 1 VK_SUCCESS VK_SUCCESS)
        (exampleInstance false)).inst.currentFrame < 2 :=
  have h := frame_counter 2 (exampleFrameEnv VK_SUCCESS 1 VK_SUCCESS VK_SUCCESS)
    (exampleInstance false) (by decide) (by decide)
  ⟨by decide, by decide, (h.2.2.1 (by decide)).1, h.2.2.2⟩

/-- Case analysis of `drawFrame`: a property of its outcome holds as soon as
it holds on each of the eight paths through the function. -/
theorem drawFrame_elim (F : Nat) (env : FrameEnv) (s : Instance)
    (P : Outcome FrameCall → Prop)
    (hslot : (s.sync.inFlightFences.get? s.currentFrame = none ∨
        s.sync.imageAvailableSemaphores.get? s.currentFrame = none) →
      P { inst := s, trace := [], status := Status.undefined })
    (hstale : ∀ fence semaphore,
      s.sync.inFlightFences.get? s.currentFrame = some fence →
      s.sync.imageAvailableSemaphores.get? s.currentFrame = some semaphore →
      env.acquireResult = VK_ERROR_OUT_OF_DATE_KHR →
      P { inst := (recreateSwapChain env.rebuild s).inst
          trace := [FrameCall.waitForFences fence, FrameCall.acquireNextImage semaphore,
            FrameCall.recreateSwapChain (recreateSwapChain env.rebuild s).trace]
          status := (recreateSwapChain env.rebuild s).status })
    (herror : ∀ fence semaphore,
      s.sync.inFlightFences.get? s.currentFrame = some fence →
      s.sync.imageAvailableSemaphores.get? s.currentFrame = some semaphore →
      ¬ successOrStale env.acquireResult →
      P { inst := s
          trace := [FrameCall.waitForFences fence, FrameCall.acquireNextImage semaphore]
          status := Status.threw "failed to acquire swap chain image!" })
    (htable : ∀ fence semaphore,
      s.sync.inFlightFences.get? s.currentFrame = some fence →
      s.sync.imageAvailableSemaphores.get? s.currentFrame = some semaphore →
      usable env.acquireResult →
      s.sync.imagesInFlight.get? env.imageIndex = none →
      P { inst := s, trace := stepsToAcquire fence semaphore, status := Status.undefined })
    (hbuffer : ∀ fence semaphore owner,
      s.sync.inFlightFences.get? s.currentFrame = some fence →
      s.sync.imageAvailableSemaphores.get? s.currentFrame = some semaphore →
      usable env.acquireResult →
      s.sync.imagesInFlight.get? env.imageIndex = some owner →
      (s.commander.buffers.get? env.imageIndex = none ∨
        s.sync.renderFinishedSemaphores.get? s.currentFrame = none) →
      P { inst := s.claim env.imageIndex fence
          trace := stepsToImageWait fence semaphore owner env.imageIndex
          status := Status.undefined })
    (hsubmit : ∀ fence semaphore owner commandBuffer renderFinished,
      s.sync.inFlightFences.get? s.currentFrame = some fence →
      s.sync.imageAvailableSemaphores.get? s.currentFrame = some semaphore →
      usable env.acquireResult →
      s.sync.imagesInFlight.get? env.imageIndex = some owner →
      s.commander.buffers.get? env.imageIndex = some commandBuffer →
      s.sync.renderFinishedSemaphores.get? s.currentFrame = some renderFinished →
      env.submitResult ≠ VK_SUCCESS →
      P { inst := s.claim env.imageIndex fence
          trace := stepsToSubmit fence semaphore owner env.imageIndex commandBuffer
            renderFinished
          status := Status.threw "failed to submit draw command buffer!" })
    (hrebuild : ∀ fence semaphore owner commandBuffer renderFinished,
      s.sync.inFlightFences.get? s.currentFrame = some fence →
      s.sync.imageAvailableSemaphores.get? s.currentFrame = some semaphore →
      usable env.acquireResult →
      s.sync.imagesInFlight.get? env.imageIndex = some owner →
      s.commander.buffers.get? env.imageIndex = some commandBuffer →
      s.sync.renderFinishedSemaphores.get? s.currentFrame = some renderFinished →
      env.submitResult = VK_SUCCESS →
      (env.acquireResult = VK_SUBOPTIMAL_KHR ∨ s.framebufferResized = true) →
      P ((({ inst := s.claim env.imageIndex fence
             trace := stepsToPresent fence semaphore owner env.imageIndex commandBuffer
               renderFinished
             status := Status.returned } : Outcome FrameCall).andThen
            (rebuild env.rebuild)).andThen (advanceFrame F)))
    (hplain : ∀ fence semaphore owner commandBuffer renderFinished,
      s.sync.inFlightFences.get? s.currentFrame = some fence →
      s.sync.imageAvailableSemaphores.get? s.currentFrame = some semaphore →
      env.acquireResult = VK_SUCCESS →
      s.sync.imagesInFlight.get? env.imageIndex = some owner →
      s.commander.buffers.get? env.imageIndex = some commandBuffer →
      s.sync.renderFinishedSemaphores.get? s.currentFrame = some renderFinished →
      env.submitResult = VK_SUCCESS →
      s.framebufferResized = false →
      P { inst := { s.claim env.imageIndex fence with
                    currentFrame := (s.currentFrame + 1) % F }
          trace := stepsToPresent fence semaphore owner env.imageIndex commandBuffer
            renderFinished
          status := Status.returned }) :
    P (drawFrame F env s) := by
  cases hfence : s.sync.inFlightFences.get? s.currentFrame with
  | none =>
    rw [drawFrame_of_no_slot F env s (Or.inl hfence)]
    exact hslot (Or.inl hfence)
  | some fence =>
  cases hsem : s.sync.imageAvailableSemaphores.get? s.currentFrame with
  | none =>
    rw [drawFrame_of_no_slot F env s (Or.inr hsem)]
    exact hslot (Or.inr hsem)
  | some semaphore =>
  by_cases hood : env.acquireResult = VK_ERROR_OUT_OF_DATE_KHR
  · rw [drawFrame_of_out_of_date F env s fence semaphore hfence hsem hood]
    exact hstale fence semaphore hfence hsem hood
  · rcases usable_or_error env.acquireResult with hus | herr
    · cases howner : s.sync.imagesInFlight.get? env.imageIndex with
      | none =>
        rw [drawFrame_of_no_owner F env s fence semaphore hfence hsem hus howner]
        exact htable fence semaphore hfence hsem hus howner
      | some owner =>
        rw [drawFrame_of_usable F env s fence semaphore owner hfence hsem hus howner]
        cases hb : s.commander.buffers.get? env.imageIndex with
        | none => exact hbuffer fence semaphore owner hfence hsem hus howner (Or.inl hb)
        | some commandBuffer =>
        cases hr : s.sync.renderFinishedSemaphores.get? s.currentFrame with
        | none => exact hbuffer fence semaphore owner hfence hsem hus howner (Or.inr hr)
        | some renderFinished =>
        dsimp only
        by_cases hsub : env.submitResult ≠ VK_SUCCESS
        · rw [if_pos hsub]
          exact hsubmit fence semaphore owner commandBuffer renderFinished hfence hsem hus howner
            hb hr hsub
        · rw [if_neg hsub]
          have hsub2 : env.submitResult = VK_SUCCESS := by
            by_cases h : env.submitResult = VK_SUCCESS
            · exact h
            · exact absurd h hsub
          by_cases hre : env.acquireResult = VK_SUBOPTIMAL_KHR ∨ s.framebufferResized = true
          · rw [if_pos hre]
            exact hrebuild fence semaphore owner commandBuffer renderFinished hfence hsem hus
              howner hb hr hsub2 hre
          · rw [if_neg hre]
            have hacq : env.acquireResult = VK_SUCCESS := by
              rcases hus with h | h
              · exact h
              · exact absurd (Or.inl h) hre
            have hflag : s.framebufferResized = false := by
              cases hf : s.framebufferResized with
              | false => rfl
              | true => exact absurd (Or.inr hf) hre
            exact hplain fence semaphore owner commandBuffer renderFinished hfence hsem hacq
              howner hb hr hsub2 hflag
    · rw [drawFrame_of_acquire_error F env s fence semaphore hfence hsem hood herr.1 herr.2]
      refine herror fence semaphore hfence hsem ?_
      intro h
      rcases h with h | h | h
      · exact herr.1 h
      · exact herr.2 h
      · exact hood h

/-! ## C4: the pending-resize flag -/

/-- The failing run of C4: with the resize flag set by one notification, a
frame whose acquire and present succeed rebuilds and returns with the flag
still set, and the next frame, again with a successful acquire and present and
no new notification, rebuilds once more. -/
theorem resize_flag_not_cleared :
    (drawFrame 2 (exampleFrameEnv VK_SUCCESS 1 VK_SUCCESS VK_SUCCESS)
        (exampleInstance true)).status = Status.returned ∧
      (drawFrame 2 (exampleFrameEnv VK_SUCCESS 1 VK_SUCCESS VK_SUCCESS)
        (exampleInstance true)).trace.countP FrameCall.isRebuild = 1 ∧
      (drawFrame 2 (exampleFrameEnv VK_SUCCESS 1 VK_SUCCESS VK_SUCCESS)
        (exampleInstance true)).inst.framebufferResized = true ∧
      (drawFrame 2 (exampleFrameEnv VK_SUCCESS 0 VK_SUCCESS VK_SUCCESS)
        (drawFrame 2 (exampleFrameEnv VK_SUCCESS 1 VK_SUCCESS VK_SUCCESS)
          (exampleInstance true)).inst).status = Status.returned ∧
      (drawFrame 2 (exampleFrameEnv VK_SUCCESS 0 VK_SUCCESS VK_SUCCESS)
        (drawFrame 2 (exampleFrameEnv VK_SUCCESS 1 VK_SUCCESS VK_SUCCESS)
          (exampleInstance true)).inst).trace.countP FrameCall.isRebuild = 1 := by
  decide

/-- C4: `drawFrame` tests the pending-resize flag and never clears it, and
neither does the rebuild it triggers.  A call entered with the flag set ends
with the flag still set, however it ends, and when such a call gets as far as
the present it rebuilds exactly once, after the present; the flag is not
consumed by the rebuild. -/
theorem resize_flag_stays_set (F : Nat) (env : FrameEnv) (s : Instance)
    (hflag : s.framebufferResized = true) :
    (drawFrame F env s).inst.framebufferResized = true ∧
      (∀ fence semaphore owner commandBuffer renderFinished,
        s.sync.inFlightFences.get? s.currentFrame = some fence →
        s.sync.imageAvailableSemaphores.get? s.currentFrame = some semaphore →
        usable env.acquireResult →
        s.sync.imagesInFlight.get? env.imageIndex = some owner →
        s.commander.buffers.get? env.imageIndex = some commandBuffer →
        s.sync.renderFinishedSemaphores.get? s.currentFrame = some renderFinished →
        env.submitResult = VK_SUCCESS →
        (drawFrame F env s).trace =
          stepsToPresent fence semaphore owner env.imageIndex commandBuffer renderFinished ++
            [FrameCall.recreateSwapChain
              (recreateSwapChain env.rebuild (s.claim env.imageIndex fence)).trace] ∧
        (drawFrame F env s).trace.countP FrameCall.isRebuild = 1) := by
  constructor
  · refine drawFrame_elim F env s (fun o => o.inst.framebufferResized = true) ?_ ?_ ?_ ?_ ?_ ?_ ?_ ?_
    · intro _; exact hflag
    · intro fence semaphore _ _ _
      exact (frozen_recreateSwapChain s.currentFrame s.sync true env.rebuild s
        ⟨rfl, rfl, fun _ => hflag⟩).2.2 rfl
    · intro _ _ _ _ _; exact hflag
    · intro _ _ _ _ _ _; exact hflag
    · intro _ _ _ _ _ _ _ _; exact hflag
    · intro _ _ _ _ _ _ _ _ _ _ _ _; exact hflag
    · intro fence semaphore owner commandBuffer renderFinished _ _ _ _ _ _ _ _
      exact (present_rebuild F env.rebuild (s.claim env.imageIndex fence) _).2.2.2.1 hflag
    · intro _ _ _ _ _ _ _ _ _ _ _ _ hf
      rw [hflag] at hf
      cases hf
  · intro fence semaphore owner commandBuffer renderFinished hfence hsem hus howner hb hr hsub
    rw [drawFrame_of_usable F env s fence semaphore owner hfence hsem hus howner, hb, hr]
    dsimp only
    rw [if_neg (fun h => h hsub), if_pos (Or.inr hflag)]
    have h := present_rebuild F env.rebuild (s.claim env.imageIndex fence)
      (stepsToPresent fence semaphore owner env.imageIndex commandBuffer renderFinished)
    refine ⟨h.1, ?_⟩
    rw [h.1]
    simp [stepsToPresent, stepsToSubmit, stepsToImageWait, stepsToAcquire, imageWait,
      FrameCall.isRebuild]

theorem resize_flag_stays_set_witness :
    (exampleInstance true).framebufferResized = true ∧
      (drawFrame 2 (exampleFrameEnv VK_SUCCESS 1 VK_SUCCESS VK_SUCCESS)
        (exampleInstance true)).inst.framebufferResized = true ∧
      (drawFrame 2 (exampleFrameEnv VK_SUCCESS 1 VK_SUCCESS VK_SUCCESS)
        (exampleInstance true)).trace.countP FrameCall.isRebuild = 1 :=
  have h := resize_flag_stays_set 2 (exampleFrameEnv VK_SUCCESS 1 VK_SUCCESS VK_SUCCESS)
    (exampleInstance true) rfl
  ⟨rfl, h.1, (h.2 11 21 12 [Cmd.endRenderPass] 31 rfl rfl (Or.inl rfl) rfl rfl rfl rfl).2⟩

/-! ## C5: which results are fatal -/

theorem noThrow_step {τ : Type} (o : Outcome τ) {g : Instance → Outcome τ}
    (ho : ∀ what, o.status ≠ Status.threw what) (hg : NoThrow g) :
    ∀ what, (o.andThen g).status ≠ Status.threw what := by
  intro what
  by_cases h : o.status = Status.returned
  · rw [andThen_of_returned _ _ h]
    exact hg _ what
  · rw [andThen_of_not_returned _ _ h]
    exact ho what

theorem noThrow_andThen {τ : Type} {f g : Instance → Outcome τ}
    (hf : NoThrow f) (hg : NoThrow g) : NoThrow (fun s => (f s).andThen g) :=
  fun s => noThrow_step (f s) (hf s) hg

theorem noThrow_forEach {τ : Type} {body : Nat → Instance → Outcome τ}
    (hb : ∀ i, NoThrow (body i)) (xs : List Nat) : NoThrow (forEach body xs) := by
  induction xs with
  | nil => intro s what h; cases h
  | cons i rest ih => exact noThrow_andThen (hb i) ih

theorem noThrow_createResource (r : Resource) : NoThrow (createResource r) := by
  intro s what h
  cases h

theorem noThrow_destroyResource (r : Resource) : NoThrow (destroyResource r) := by
  intro s what h
  cases h

theorem noThrow_destroyImageViews : NoThrow destroyImageViews := by
  intro s
  unfold destroyImageViews
  refine noThrow_step _ ?_ (fun t what h => by cases h)
  refine noThrow_forEach ?_ _ s
  intro i t what
  dsimp only
  split <;> intro h <;> cases h

theorem noThrow_cleanupSwapChain : NoThrow cleanupSwapChain := by
  unfold cleanupSwapChain
  repeat first
    | exact noThrow_destroyResource _
    | refine noThrow_andThen (noThrow_destroyResource _) ?_
    | refine noThrow_andThen noThrow_destroyImageViews ?_

theorem noThrow_waitForExtent (polls : List WindowPoll) :
    ∀ size, NoThrow (waitForExtent polls size) := by
  induction polls with
  | nil =>
    intro size s what
    unfold waitForExtent
    split <;> intro h <;> cases h
  | cons p rest ih =>
    intro size s
    unfold waitForExtent
    split
    · exact noThrow_step _ (fun what h => by cases h) (ih p.size)
    · intro what h
      cases h

theorem noThrow_createSwapChain (env : SwapchainEnv)
    (hg : env.graphicsFamily.isSome = true) (hp : env.presentFamily.isSome = true)
    (hc : env.createResult = VK_SUCCESS) : NoThrow (createSwapChain env) := by
  intro s what
  obtain ⟨g, hg⟩ := Option.isSome_iff_exists.1 hg
  obtain ⟨p, hp⟩ := Option.isSome_iff_exists.1 hp
  unfold createSwapChain
  simp only [hg, hp, hc]
  split <;> intro h <;> simp at h

theorem noThrow_recordBuffer (env : CommanderEnv) (i : Nat)
    (hb : env.beginResult i = VK_SUCCESS) (he : env.endResult i = VK_SUCCESS) :
    NoThrow (recordBuffer env i) := by
  intro s what
  unfold recordBuffer
  rw [if_neg (fun h => h hb)]
  split
  · intro h; cases h
  · dsimp only
    rw [if_neg (fun h => h he)]
    intro h; cases h

theorem noThrow_createBuffers (env : CommanderEnv) (ha : env.allocateResult = VK_SUCCESS)
    (hb : ∀ i, env.beginResult i = VK_SUCCESS) (he : ∀ i, env.endResult i = VK_SUCCESS) :
    NoThrow (createBuffers env) := by
  intro s
  unfold createBuffers
  dsimp only
  rw [if_neg (fun h => h ha)]
  exact noThrow_step _ (fun what h => by cases h)
    (noThrow_forEach (fun i => noThrow_recordBuffer env i (hb i) (he i)) _)

theorem noThrow_recreateSwapChain (env : RebuildEnv) (hacc : NoRejection env) :
    NoThrow (recreateSwapChain env) := by
  unfold recreateSwapChain
  refine noThrow_andThen (fun s what h => by cases h) ?_
  refine noThrow_andThen (noThrow_waitForExtent _ _) ?_
  refine noThrow_andThen (fun s what h => by cases h) ?_
  refine noThrow_andThen noThrow_cleanupSwapChain ?_
  refine noThrow_andThen
    (noThrow_createSwapChain _ hacc.graphicsFamily hacc.presentFamily hacc.created) ?_
  refine noThrow_andThen (fun s what h => by cases h) ?_
  repeat refine noThrow_andThen (noThrow_createResource _) ?_
  refine noThrow_andThen (fun s what h => by cases h) ?_
  exact noThrow_createBuffers _ hacc.allocated hacc.begun hacc.ended

/-- C5, counterexample: `drawFrame` throws although acquire, submit and
present all return success or a staleness code.  Once when the rebuild that a
suboptimal acquire triggers after the present is rejected by
`vkCreateSwapchainKHR`, and once when the submission itself returns the
staleness code `VK_SUBOPTIMAL_KHR`, which `drawFrame` treats as a failure. -/
theorem drawFrame_throws_without_error_result :
    (drawFrame 2
        { exampleFrameEnv VK_SUBOPTIMAL_KHR 1 VK_SUCCESS VK_SUCCESS with
          rebuild := exampleRebuildEnv VK_ERROR_INITIALIZATION_FAILED [41, 42, 43] }
        (exampleInstance false)).status = Status.threw "failed to create swap chain!" ∧
      (drawFrame 2 (exampleFrameEnv VK_SUCCESS 1 VK_SUBOPTIMAL_KHR VK_SUCCESS)
        (exampleInstance false)).status =
        Status.threw "failed to submit draw command buffer!" := by
  decide

/-- C5 (amended): `drawFrame` throws whenever the acquire returns a result
that is neither success nor a staleness code, and whenever the submission
returns anything but success; it does not throw when the acquire returns
success or a staleness code, the submission returns success, the present
returns success or a staleness code, and nothing is rejected during a rebuild. -/
theorem drawFrame_fatal_results (F : Nat) (env : FrameEnv) (s : Instance)
    (fence semaphore : Handle)
    (hfence : s.sync.inFlightFences.get? s.currentFrame = some fence)
    (hsem : s.sync.imageAvailableSemaphores.get? s.currentFrame = some semaphore) :
    (¬ successOrStale env.acquireResult →
        (drawFrame F env s).status = Status.threw "failed to acquire swap chain image!") ∧
      (∀ owner commandBuffer renderFinished,
        usable env.acquireResult →
        s.sync.imagesInFlight.get? env.imageIndex = some owner →
        s.commander.buffers.get? env.imageIndex = some commandBuffer →
        s.sync.renderFinishedSemaphores.get? s.currentFrame = some renderFinished →
        env.submitResult ≠ VK_SUCCESS →
        (drawFrame F env s).status = Status.threw "failed to submit draw command buffer!") ∧
      (successOrStale env.acquireResult → env.submitResult = VK_SUCCESS →
        successOrStale env.presentResult → NoRejection env.rebuild →
        ∀ what, (drawFrame F env s).status ≠ Status.threw what) := by
  refine ⟨?_, ?_, ?_⟩
  · intro hacq
    have h1 : env.acquireResult ≠ VK_ERROR_OUT_OF_DATE_KHR := fun h => hacq (Or.inr (Or.inr h))
    have h2 : env.acquireResult ≠ VK_SUCCESS := fun h => hacq (Or.inl h)
    have h3 : env.acquireResult ≠ VK_SUBOPTIMAL_KHR := fun h => hacq (Or.inr (Or.inl h))
    rw [drawFrame_of_acquire_error F env s fence semaphore hfence hsem h1 h2 h3]
  · intro owner commandBuffer renderFinished hus howner hb hr hsub
    rw [drawFrame_of_usable F env s fence semaphore owner hfence hsem hus howner, hb, hr]
    dsimp only
    rw [if_pos hsub]
  · intro hacq hsub _ hacc
    refine drawFrame_elim F env s (fun o => ∀ what, o.status ≠ Status.threw what)
      ?_ ?_ ?_ ?_ ?_ ?_ ?_ ?_
    · intro _ what h; cases h
    · intro _ _ _ _ _
      exact noThrow_recreateSwapChain env.rebuild hacc s
    · intro _ _ _ _ hn
      exact absurd hacq hn
    · intro _ _ _ _ _ _ what h; cases h
    · intro _ _ _ _ _ _ _ _ what h; cases h
    · intro _ _ _ _ _ _ _ _ _ _ _ hn
      exact absurd hsub hn
    · intro fence2 _ _ _ _ _ _ _ _ _ _ _ _ what
      rw [(present_rebuild F env.rebuild (s.claim env.imageIndex fence2) _).2.1]
      exact noThrow_recreateSwapChain env.rebuild hacc _ what
    · intro _ _ _ _ _ _ _ _ _ _ _ _ _ what h; cases h

theorem drawFrame_fatal_results_witness :
    (exampleInstance false).sync.inFlightFences.get? (exampleInstance false).currentFrame =
        some 11 ∧
      (exampleInstance false).sync.imageAvailableSemaphores.get?
        (exampleInstance false).currentFrame = some 21 ∧
      (drawFrame 2 (exampleFrameEnv VK_ERROR_DEVICE_LOST 1 VK_SUCCESS VK_SUCCESS)
        (exampleInstance false)).status =
        Status.threw "failed to acquire swap chain image!" ∧
      (drawFrame 2 (exampleFrameEnv VK_SUCCESS 1 VK_ERROR_DEVICE_LOST VK_SUCCESS)
        (exampleInstance false)).status =
        Status.threw "failed to submit draw command buffer!" ∧
      (∀ what, (drawFrame 2 (exampleFrameEnv VK_SUBOPTIMAL_KHR 1 VK_SUCCESS VK_SUCCESS)
        (exampleInstance false)).status ≠ Status.threw what) :=
  ⟨rfl, rfl,
    (drawFrame_fatal_results 2 (exampleFrameEnv VK_ERROR_DEVICE_LOST 1 VK_SUCCESS VK_SUCCESS)
      (exampleInstance false) 11 21 rfl rfl).1 (by decide),
    (drawFrame_fatal_results 2 (exampleFrameEnv VK_SUCCESS 1 VK_ERROR_DEVICE_LOST VK_SUCCESS)
      (exampleInstance false) 11 21 rfl rfl).2.1 12 [Cmd.endRenderPass] 31 (Or.inl rfl)
      rfl rfl rfl (by decide),
    (drawFrame_fatal_results 2 (exampleFrameEnv VK_SUBOPTIMAL_KHR 1 VK_SUCCESS VK_SUCCESS)
      (exampleInstance false) 11 21 rfl rfl).2.2 (Or.inr (Or.inl rfl)) rfl (Or.inl rfl)
      (exampleRebuildOk false).accepted⟩

/-! ## C6, C7: what a rebuild re-creates -/

theorem pipeline_createSwapChain (env : SwapchainEnv) :
    Keeps (fun t => t.live Resource.graphicsPipeline = false) (createSwapChain env) := by
  intro s hs
  unfold createSwapChain
  dsimp only
  split
  · exact hs
  · split
    · split
      · exact hs
      · simpa [Instance.setLive] using hs
    · exact hs

theorem pipeline_recordBuffer (env : CommanderEnv) (i : Nat) :
    Keeps (fun t => t.live Resource.graphicsPipeline = false) (recordBuffer env i) := by
  intro s hs
  unfold recordBuffer
  split
  · exact hs
  · split
    · exact hs
    · dsimp only
      split <;> exact hs

theorem pipeline_createBuffers (env : CommanderEnv) :
    Keeps (fun t => t.live Resource.graphicsPipeline = false) (createBuffers env) := by
  intro s hs
  unfold createBuffers
  dsimp only
  split
  · exact hs
  · refine keeps_step _ ?_ (keeps_forEach (pipeline_recordBuffer env) _)
    simpa [Instance.setLive] using hs

theorem pipeline_createResource (r : Resource) (hr : r ≠ Resource.graphicsPipeline) :
    Keeps (fun t => t.live Resource.graphicsPipeline = false) (createResource r) := by
  intro s hs
  show (if Resource.graphicsPipeline = r then true else s.live Resource.graphicsPipeline) = false
  rw [if_neg (fun h => hr h.symm)]
  exact hs

theorem pipeline_destroyResource (r : Resource) :
    Keeps (fun t => t.live Resource.graphicsPipeline = false) (destroyResource r) := by
  intro s hs
  show (if Resource.graphicsPipeline = r then false else s.live Resource.graphicsPipeline) = false
  split
  · rfl
  · exact hs

theorem pipeline_destroyImageViews :
    Keeps (fun t => t.live Resource.graphicsPipeline = false) destroyImageViews := by
  intro s hs
  unfold destroyImageViews
  dsimp only
  refine keeps_step (P := fun t => t.live Resource.graphicsPipeline = false) _ ?_ ?_
  · refine keeps_forEach (P := fun t => t.live Resource.graphicsPipeline = false) ?_ _ s hs
    intro i t ht
    dsimp only
    split <;> exact ht
  · intro t ht
    exact ht

theorem pipeline_cleanupSwapChain :
    Ensures cleanupSwapChain (fun t => t.live Resource.graphicsPipeline = false) := by
  unfold cleanupSwapChain
  refine ensures_andThen_right _ ?_
  refine ensures_andThen_right _ ?_
  refine ensures_andThen_right _ ?_
  refine ensures_andThen_right _ ?_
  refine ensures_andThen_keep (fun s _ => by simp [destroyResource, Instance.setLive]) ?_
  refine keeps_andThen (pipeline_destroyResource _) ?_
  refine keeps_andThen pipeline_destroyImageViews ?_
  refine keeps_andThen (pipeline_destroyResource _) ?_
  refine keeps_andThen (pipeline_destroyResource _) ?_
  exact pipeline_destroyResource _

theorem pipeline_recreateSwapChain (env : RebuildEnv) :
    Ensures (recreateSwapChain env) (fun t => t.live Resource.graphicsPipeline = false) := by
  unfold recreateSwapChain
  refine ensures_andThen_right _ ?_
  refine ensures_andThen_right _ ?_
  refine ensures_andThen_right _ ?_
  refine ensures_andThen_keep pipeline_cleanupSwapChain ?_
  refine keeps_andThen (pipeline_createSwapChain _) ?_
  refine keeps_andThen (fun s hs => by simpa [createImageViews, Instance.setLive] using hs) ?_
  refine keeps_andThen (pipeline_createResource _ (by decide)) ?_
  refine keeps_andThen (pipeline_createResource _ (by decide)) ?_
  refine keeps_andThen (pipeline_createResource _ (by decide)) ?_
  refine keeps_andThen (pipeline_createResource _ (by decide)) ?_
  refine keeps_andThen (pipeline_createResource _ (by decide)) ?_
  refine keeps_andThen (pipeline_createResource _ (by decide)) ?_
  refine keeps_andThen (fun s hs => by simpa [createDescriptorSets, Instance.setLive] using hs) ?_
  exact pipeline_createBuffers _

/-- C6: `cleanupSwapChain` destroys the graphics pipeline and
`recreateSwapChain` does not create it again: after every rebuild that runs to
its end the graphics pipeline is not live, whatever was live before. -/
theorem recreateSwapChain_leaves_pipeline_destroyed (env : RebuildEnv) (s : Instance)
    (hret : (recreateSwapChain env s).status = Status.returned) :
    (recreateSwapChain env s).inst.live Resource.graphicsPipeline = false :=
  pipeline_recreateSwapChain env s hret

theorem recreateSwapChain_leaves_pipeline_destroyed_witness :
    (recreateSwapChain (exampleRebuildEnv VK_SUCCESS [41, 42, 43])
        (exampleInstance false)).status = Status.returned ∧
      (exampleInstance false).live Resource.graphicsPipeline = true ∧
      (recreateSwapChain (exampleRebuildEnv VK_SUCCESS [41, 42, 43])
        (exampleInstance false)).inst.live Resource.graphicsPipeline = false ∧
      (∀ r, r ≠ Resource.graphicsPipeline →
        (recreateSwapChain (exampleRebuildEnv VK_SUCCESS [41, 42, 43])
          (exampleInstance false)).inst.live r = true) ∧
      (recreateSwapChain (exampleRebuildEnv VK_SUCCESS [41, 42, 43])
        (exampleInstance false)).inst.commander.buffers.map
          (fun cmds => cmds.contains (Cmd.bindPipeline 61)) = [true, true, true] :=
  ⟨by decide, by decide,
    recreateSwapChain_leaves_pipeline_destroyed _ _ (by decide),
    by intro r hr; cases r <;> first | rfl | exact absurd rfl hr,
    by decide⟩

/-- C7: `recreateSwapChain` never writes the image-in-flight table, so after a
rebuild the table has the size it had before and not the image count of the
new swapchain.  Here the old swapchain has three images and the new one four:
the table keeps three entries, and the next `drawFrame` that acquires image 3
reads `imagesInFlight[3]` out of range. -/
theorem recreateSwapChain_keeps_table :
    (∀ env s, (recreateSwapChain env s).inst.sync.imagesInFlight = s.sync.imagesInFlight) ∧
      (recreateSwapChain (exampleRebuildEnv VK_SUCCESS [41, 42, 43, 44])
        (exampleInstance false)).status = Status.returned ∧
      (recreateSwapChain (exampleRebuildEnv VK_SUCCESS [41, 42, 43, 44])
        (exampleInstance false)).inst.surface.swapChainImages.length = 4 ∧
      (recreateSwapChain (exampleRebuildEnv VK_SUCCESS [41, 42, 43, 44])
        (exampleInstance false)).inst.commander.buffers.length = 4 ∧
      (recreateSwapChain (exampleRebuildEnv VK_SUCCESS [41, 42, 43, 44])
        (exampleInstance false)).inst.sync.imagesInFlight.length = 3 ∧
      (drawFrame 2 (exampleFrameEnv VK_SUCCESS 3 VK_SUCCESS VK_SUCCESS)
        (recreateSwapChain (exampleRebuildEnv VK_SUCCESS [41, 42, 43, 44])
          (exampleInstance false)).inst).status = Status.undefined := by
  refine ⟨fun env s => ?_, by decide, by decide, by decide, by decide, by decide⟩
  rw [(frozen_recreateSwapChain s.currentFrame s.sync false env s ⟨rfl, rfl, by simp⟩).2.1]

/-! ## C8: the image wait and the image-in-flight table -/

theorem table_after_claim (table : List Handle) (k : Nat) (fence owner : Handle)
    (howner : table.get? k = some owner) (j : Nat) :
    (table.set k fence).get? j = if j = k then some fence else table.get? j := by
  have hk : k < table.length := (List.get?_eq_some.1 howner).1
  simp only [List.get?_eq_getElem?]
  by_cases hj : j = k
  · rw [if_pos hj, hj, List.getElem?_set_self hk]
  · rw [if_neg hj, List.getElem?_set_ne (fun h => hj h.symm)]

theorem waits_stepsToImageWait (fence semaphore owner : Handle) (k : Nat) :
    (stepsToImageWait fence semaphore owner k).filter FrameCall.isWait =
      FrameCall.waitForFences fence :: imageWait owner := by
  unfold stepsToImageWait stepsToAcquire imageWait
  split <;> simp [FrameCall.isWait]

theorem waits_stepsToPresent (fence semaphore owner : Handle) (k : Nat)
    (commandBuffer : List Cmd) (renderFinished : Handle) :
    (stepsToPresent fence semaphore owner k commandBuffer renderFinished).filter
        FrameCall.isWait = FrameCall.waitForFences fence :: imageWait owner := by
  unfold stepsToPresent stepsToSubmit
  rw [List.filter_append, List.filter_append, waits_stepsToImageWait]
  simp [FrameCall.isWait]

theorem waits_stepsToSubmit (fence semaphore owner : Handle) (k : Nat)
    (commandBuffer : List Cmd) (renderFinished : Handle) :
    (stepsToSubmit fence semaphore owner k commandBuffer renderFinished).filter
        FrameCall.isWait = FrameCall.waitForFences fence :: imageWait owner := by
  unfold stepsToSubmit
  rw [List.filter_append, waits_stepsToImageWait]
  simp [FrameCall.isWait]

/-- C8: in a frame whose acquire returns a usable image index `k`, the fence
waits that `drawFrame` issues are the wait on the slot fence and, exactly when
the table entry for `k` is not `VK_NULL_HANDLE`, the wait on that entry; when
the call ends, entry `k` of the table is the in-flight fence of the current
slot and every other entry is what it was. -/
theorem drawFrame_image_wait (F : Nat) (env : FrameEnv) (s : Instance)
    (fence semaphore owner : Handle)
    (hfence : s.sync.inFlightFences.get? s.currentFrame = some fence)
    (hsem : s.sync.imageAvailableSemaphores.get? s.currentFrame = some semaphore)
    (hacq : usable env.acquireResult)
    (howner : s.sync.imagesInFlight.get? env.imageIndex = some owner) :
    (drawFrame F env s).trace.filter FrameCall.isWait =
        FrameCall.waitForFences fence ::
          (if owner ≠ VK_NULL_HANDLE then [FrameCall.waitForFences owner] else []) ∧
      (drawFrame F env s).inst.sync.imagesInFlight =
        s.sync.imagesInFlight.set env.imageIndex fence ∧
      (∀ j, (drawFrame F env s).inst.sync.imagesInFlight.get? j =
        if j = env.imageIndex then some fence else s.sync.imagesInFlight.get? j) := by
  have key : (drawFrame F env s).trace.filter FrameCall.isWait =
        FrameCall.waitForFences fence :: imageWait owner ∧
      (drawFrame F env s).inst.sync.imagesInFlight =
        s.sync.imagesInFlight.set env.imageIndex fence := by
    rw [drawFrame_of_usable F env s fence semaphore owner hfence hsem hacq howner]
    split
    · rename_i commandBuffer renderFinished _ _
      split
      · exact ⟨waits_stepsToSubmit _ _ _ _ _ _, rfl⟩
      · split
        · have h := present_rebuild F env.rebuild (s.claim env.imageIndex fence)
            (stepsToPresent fence semaphore owner env.imageIndex commandBuffer renderFinished)
          refine ⟨?_, ?_⟩
          · rw [h.1, List.filter_append, waits_stepsToPresent]
            simp [FrameCall.isWait]
          · rw [h.2.2.1]
            rfl
        · exact ⟨waits_stepsToPresent _ _ _ _ _ _, rfl⟩
    · exact ⟨waits_stepsToImageWait _ _ _ _, rfl⟩
  refine ⟨key.1, key.2, fun j => ?_⟩
  rw [key.2]
  exact table_after_claim _ _ _ _ howner j

theorem drawFrame_image_wait_witness :
    usable (exampleFrameEnv VK_SUCCESS 1 VK_SUCCESS VK_SUCCESS).acquireResult ∧
      (exampleInstance false).sync.imagesInFlight.get? 1 = some 12 ∧
      (drawFrame 2 (exampleFrameEnv VK_SUCCESS 1 VK_SUCCESS VK_SUCCESS)
        (exampleInstance false)).trace.filter FrameCall.isWait =
        [FrameCall.waitForFences 11, FrameCall.waitForFences 12] ∧
      (drawFrame 2 (exampleFrameEnv VK_SUCCESS 1 VK_SUCCESS VK_SUCCESS)
        (exampleInstance false)).inst.sync.imagesInFlight = [0, 11, 0] ∧
      (drawFrame 2 (exampleFrameEnv VK_SUBOPTIMAL_KHR 0 VK_SUCCESS VK_SUCCESS)
        (exampleInstance false)).trace.filter FrameCall.isWait =
        [FrameCall.waitForFences 11] :=
  ⟨by decide, rfl,
    (drawFrame_image_wait 2 (exampleFrameEnv VK_SUCCESS 1 VK_SUCCESS VK_SUCCESS)
      (exampleInstance false) 11 21 12 rfl rfl (by decide) rfl).1,
    (drawFrame_image_wait 2 (exampleFrameEnv VK_SUCCESS 1 VK_SUCCESS VK_SUCCESS)
      (exampleInstance false) 11 21 12 rfl rfl (by decide) rfl).2.1,
    (drawFrame_image_wait 2 (exampleFrameEnv VK_SUBOPTIMAL_KHR 0 VK_SUCCESS VK_SUCCESS)
      (exampleInstance false) 11 21 0 rfl rfl (by decide) rfl).1⟩

/-! ## C9: the order of the calls of a frame -/

theorem split_at_unique {α : Type} (p : α → Bool) (x y : α) (hy : p y = true)
    (B after : List α) (hB : B.filter p = []) :
    ∀ (A before : List α), A.filter p = [] →
      A ++ x :: B = before ++ y :: after → before = A ∧ y = x ∧ after = B := by
  intro A
  induction A with
  | nil =>
    intro before _ h
    cases before with
    | nil =>
      simp only [List.nil_append, List.cons.injEq] at h
      exact ⟨rfl, h.1.symm, h.2.symm⟩
    | cons z before2 =>
      simp only [List.nil_append, List.cons_append, List.cons.injEq] at h
      have hmem : y ∈ B := by rw [h.2]; simp
      exact absurd hy (List.filter_eq_nil_iff.1 hB y hmem)
  | cons a A2 ih =>
    intro before hA h
    have hA2 := List.filter_eq_nil_iff.1 hA
    cases before with
    | nil =>
      simp only [List.nil_append, List.cons_append, List.cons.injEq] at h
      have ha := hA2 a (List.mem_cons_self _ _)
      rw [h.1] at ha
      exact absurd hy ha
    | cons z before2 =>
      simp only [List.cons_append, List.cons.injEq] at h
      obtain ⟨h1, h2, h3⟩ := ih before2
        (List.filter_eq_nil_iff.2 (fun w hw => hA2 w (List.mem_cons_of_mem _ hw))) h.2
      exact ⟨by rw [h.1, h1], h2, h3⟩

theorem no_reset_stepsToImageWait (fence semaphore owner : Handle) (k : Nat) :
    (stepsToImageWait fence semaphore owner k).filter FrameCall.isFenceReset = [] := by
  unfold stepsToImageWait stepsToAcquire imageWait
  split <;> rfl

theorem no_reset_of_nil_filter (l before after : List FrameCall) (g : Handle)
    (hl : l.filter FrameCall.isFenceReset = [])
    (h : l = before ++ FrameCall.resetFences g :: after) : False := by
  have hmem : FrameCall.resetFences g ∈ l := by rw [h]; simp
  exact List.filter_eq_nil_iff.1 hl _ hmem rfl

/-- In a trace that follows the frame order, a fence reset is the reset of the
slot fence, it stands right after the image wait, and the call that follows it
is the submission that signals the same fence. -/
theorem frameOrder_reset {fence semaphore : Handle} {entry : Option Handle} {k : Nat}
    {trace : List FrameCall} (h : FrameOrder fence semaphore entry k trace)
    (before after : List FrameCall) (g : Handle)
    (hsplit : trace = before ++ FrameCall.resetFences g :: after) :
    g = fence ∧ ∃ owner commandBuffer renderFinished rest,
      entry = some owner ∧
      before = stepsToImageWait fence semaphore owner k ∧
      after = FrameCall.queueSubmit commandBuffer semaphore renderFinished fence :: rest ∧
      (FrameCall.waitForFences fence ∈ before ∧
        FrameCall.acquireNextImage semaphore ∈ before) := by
  have hmem : ∀ owner, FrameCall.waitForFences fence ∈ stepsToImageWait fence semaphore owner k ∧
      FrameCall.acquireNextImage semaphore ∈ stepsToImageWait fence semaphore owner k := by
    intro owner
    simp [stepsToImageWait, stepsToAcquire]
  cases h with
  | staleAtAcquire calls =>
    exact (no_reset_of_nil_filter
      (stepsToAcquire fence semaphore ++ [FrameCall.recreateSwapChain calls]) _ _ _ rfl
      hsplit).elim
  | stoppedAtAcquire =>
    exact (no_reset_of_nil_filter (stepsToAcquire fence semaphore) _ _ _ rfl hsplit).elim
  | stoppedAtImageWait owner _ =>
    exact (no_reset_of_nil_filter _ _ _ _ (no_reset_stepsToImageWait _ _ _ _) hsplit).elim
  | stoppedAtSubmit owner hentry commandBuffer renderFinished =>
    obtain ⟨h1, h2, h3⟩ := split_at_unique FrameCall.isFenceReset (FrameCall.resetFences fence)
      (FrameCall.resetFences g) rfl
      [FrameCall.queueSubmit commandBuffer semaphore renderFinished fence] after rfl
      (stepsToImageWait fence semaphore owner k) before
      (no_reset_stepsToImageWait _ _ _ _) hsplit
    refine ⟨by injection h2, owner, commandBuffer, renderFinished, [], hentry, h1, h3, ?_⟩
    rw [h1]
    exact hmem owner
  | presented owner hentry commandBuffer renderFinished =>
    obtain ⟨h1, h2, h3⟩ := split_at_unique FrameCall.isFenceReset (FrameCall.resetFences fence)
      (FrameCall.resetFences g) rfl
      [FrameCall.queueSubmit commandBuffer semaphore renderFinished fence,
        FrameCall.queuePresent k renderFinished] after rfl
      (stepsToImageWait fence semaphore owner k) before
      (no_reset_stepsToImageWait _ _ _ _)
      (by rw [← hsplit]; simp [stepsToPresent, stepsToSubmit])
    refine ⟨by injection h2, owner, commandBuffer, renderFinished, _, hentry, h1, h3, ?_⟩
    rw [h1]
    exact hmem owner
  | presentedAndRebuilt owner hentry commandBuffer renderFinished calls =>
    obtain ⟨h1, h2, h3⟩ := split_at_unique FrameCall.isFenceReset (FrameCall.resetFences fence)
      (FrameCall.resetFences g) rfl
      [FrameCall.queueSubmit commandBuffer semaphore renderFinished fence,
        FrameCall.queuePresent k renderFinished, FrameCall.recreateSwapChain calls] after rfl
      (stepsToImageWait fence semaphore owner k) before
      (no_reset_stepsToImageWait _ _ _ _)
      (by rw [← hsplit]; simp [stepsToPresent, stepsToSubmit])
    refine ⟨by injection h2, owner, commandBuffer, renderFinished, _, hentry, h1, h3, ?_⟩
    rw [h1]
    exact hmem owner

/-- C9: the calls of one `drawFrame` follow the order slot wait, acquire,
image wait, fence reset, submission, present.  A frame that does not acquire a
usable image resets no fence; a fence reset is the reset of the slot fence, it
comes after the wait on that fence, after the acquire and after the wait on the
table entry of the acquired image, and the call right after it is the
submission that signals the same fence. -/
theorem drawFrame_call_order (F : Nat) (env : FrameEnv) (s : Instance)
    (fence semaphore : Handle)
    (hfence : s.sync.inFlightFences.get? s.currentFrame = some fence)
    (hsem : s.sync.imageAvailableSemaphores.get? s.currentFrame = some semaphore) :
    FrameOrder fence semaphore (s.sync.imagesInFlight.get? env.imageIndex) env.imageIndex
        (drawFrame F env s).trace ∧
      (¬ usable env.acquireResult →
        (drawFrame F env s).trace.filter FrameCall.isFenceReset = []) ∧
      (∀ before after g,
        (drawFrame F env s).trace = before ++ FrameCall.resetFences g :: after →
        g = fence ∧ usable env.acquireResult ∧
        ∃ owner commandBuffer renderFinished rest,
          s.sync.imagesInFlight.get? env.imageIndex = some owner ∧
          before = stepsToImageWait fence semaphore owner env.imageIndex ∧
          after = FrameCall.queueSubmit commandBuffer semaphore renderFinished fence :: rest ∧
          (FrameCall.waitForFences fence ∈ before ∧
            FrameCall.acquireNextImage semaphore ∈ before)) := by
  have key : FrameOrder fence semaphore (s.sync.imagesInFlight.get? env.imageIndex)
        env.imageIndex (drawFrame F env s).trace ∧
      (¬ usable env.acquireResult →
        (drawFrame F env s).trace.filter FrameCall.isFenceReset = []) := by
    refine drawFrame_elim F env s
      (fun o => FrameOrder fence semaphore (s.sync.imagesInFlight.get? env.imageIndex)
          env.imageIndex o.trace ∧
        (¬ usable env.acquireResult → o.trace.filter FrameCall.isFenceReset = []))
      ?_ ?_ ?_ ?_ ?_ ?_ ?_ ?_
    · intro h
      rw [hfence, hsem] at h
      simp at h
    · intro f2 s2 hf2 hs2 _
      rw [hfence] at hf2
      rw [hsem] at hs2
      cases hf2
      cases hs2
      exact ⟨FrameOrder.staleAtAcquire _, fun _ => rfl⟩
    · intro f2 s2 hf2 hs2 _
      rw [hfence] at hf2
      rw [hsem] at hs2
      cases hf2
      cases hs2
      exact ⟨FrameOrder.stoppedAtAcquire, fun _ => rfl⟩
    · intro f2 s2 hf2 hs2 _ _
      rw [hfence] at hf2
      rw [hsem] at hs2
      cases hf2
      cases hs2
      exact ⟨FrameOrder.stoppedAtAcquire, fun _ => rfl⟩
    · intro f2 s2 owner hf2 hs2 hus howner _
      rw [hfence] at hf2
      rw [hsem] at hs2
      cases hf2
      cases hs2
      exact ⟨FrameOrder.stoppedAtImageWait owner howner, fun h => absurd hus h⟩
    · intro f2 s2 owner commandBuffer renderFinished hf2 hs2 hus howner _ _ _
      rw [hfence] at hf2
      rw [hsem] at hs2
      cases hf2
      cases hs2
      exact ⟨FrameOrder.stoppedAtSubmit owner howner _ _, fun h => absurd hus h⟩
    · intro f2 s2 owner commandBuffer renderFinished hf2 hs2 hus howner _ _ _ _
      rw [hfence] at hf2
      rw [hsem] at hs2
      cases hf2
      cases hs2
      rw [(present_rebuild F env.rebuild (s.claim env.imageIndex fence) _).1]
      exact ⟨FrameOrder.presentedAndRebuilt owner howner _ _ _, fun h => absurd hus h⟩
    · intro f2 s2 owner commandBuffer renderFinished hf2 hs2 hacq howner _ _ _ _
      rw [hfence] at hf2
      rw [hsem] at hs2
      cases hf2
      cases hs2
      exact ⟨FrameOrder.presented owner howner _ _, fun h => absurd (Or.inl hacq) h⟩
  refine ⟨key.1, key.2, fun before after g hsplit => ?_⟩
  obtain ⟨hg, owner, commandBuffer, renderFinished, rest, h1, h2, h3, h4⟩ :=
    frameOrder_reset key.1 before after g hsplit
  refine ⟨hg, ?_, owner, commandBuffer, renderFinished, rest, h1, h2, h3, h4⟩
  by_cases hus : usable env.acquireResult
  · exact hus
  · exact (no_reset_of_nil_filter _ _ _ _ (key.2 hus) hsplit).elim

theorem drawFrame_call_order_witness :
    (exampleInstance false).sync.inFlightFences.get? (exampleInstance false).currentFrame =
        some 11 ∧
      (exampleInstance false).sync.imageAvailableSemaphores.get?
        (exampleInstance false).currentFrame = some 21 ∧
      (drawFrame 2 (exampleFrameEnv VK_SUCCESS 1 VK_SUCCESS VK_SUCCESS)
        (exampleInstance false)).trace =
        [FrameCall.waitForFences 11, FrameCall.acquireNextImage 21,
          FrameCall.waitForFences 12, FrameCall.updateUniformBuffer 1] ++
          FrameCall.resetFences 11 ::
          [FrameCall.queueSubmit [Cmd.endRenderPass] 21 31 11, FrameCall.queuePresent 1 31] ∧
      FrameOrder 11 21 (some 12) 1
        (drawFrame 2 (exampleFrameEnv VK_SUCCESS 1 VK_SUCCESS VK_SUCCESS)
          (exampleInstance false)).trace ∧
      (11 = 11 ∧ usable (exampleFrameEnv VK_SUCCESS 1 VK_SUCCESS VK_SUCCESS).acquireResult ∧
        ∃ owner commandBuffer renderFinished rest,
          (exampleInstance false).sync.imagesInFlight.get? 1 = some owner ∧
          [FrameCall.waitForFences 11, FrameCall.acquireNextImage 21,
            FrameCall.waitForFences 12, FrameCall.updateUniformBuffer 1] =
            stepsToImageWait 11 21 owner 1 ∧
          [FrameCall.queueSubmit [Cmd.endRenderPass] 21 31 11, FrameCall.queuePresent 1 31] =
            FrameCall.queueSubmit commandBuffer 21 renderFinished 11 :: rest ∧
          (FrameCall.waitForFences 11 ∈
              [FrameCall.waitForFences 11, FrameCall.acquireNextImage 21,
                FrameCall.waitForFences 12, FrameCall.updateUniformBuffer 1] ∧
            FrameCall.acquireNextImage 21 ∈
              [FrameCall.waitForFences 11, FrameCall.acquireNextImage 21,
                FrameCall.waitForFences 12, FrameCall.updateUniformBuffer 1])) :=
  have h := drawFrame_call_order 2 (exampleFrameEnv VK_SUCCESS 1 VK_SUCCESS VK_SUCCESS)
    (exampleInstance false) 11 21 rfl rfl
  ⟨rfl, rfl, by decide, h.1, h.2.2 _ _ 11 (by decide)⟩

/-! ## C10: the swapchain extent -/

theorem castUInt32_of_size (x : Int) (h0 : 0 ≤ x) (h1 : x < 2 ^ 31) :
    castUInt32 x = x.toNat := by
  unfold castUInt32
  rw [Int.emod_eq_of_lt h0 (by omega)]

theorem max_min_eq_clampSpec (x lo hi : Nat) (h : lo ≤ hi) :
    max lo (min hi x) = clampSpec x lo hi := by
  unfold clampSpec
  split
  · omega
  · split <;> omega

/-- C10: when the surface reports a current extent, `chooseSwapExtent` returns
it unchanged; otherwise, for a framebuffer of size `w` by `h` and a capability
whose minimum extent is at most its maximum on each axis, it returns `w` and
`h` clamped into the range of the capability, so the result lies in the range
and equals the framebuffer size when that is already in the range. -/
theorem chooseSwapExtent_spec (capabilities : VkSurfaceCapabilitiesKHR) (w h : Int) :
    (capabilities.currentExtent.width ≠ UINT32_MAX →
        chooseSwapExtent capabilities (w, h) = capabilities.currentExtent) ∧
      (capabilities.currentExtent.width = UINT32_MAX →
        0 ≤ w → w < 2 ^ 31 → 0 ≤ h → h < 2 ^ 31 →
        capabilities.minImageExtent.width ≤ capabilities.maxImageExtent.width →
        capabilities.minImageExtent.height ≤ capabilities.maxImageExtent.height →
        chooseSwapExtent capabilities (w, h) =
            { width := clampSpec w.toNat capabilities.minImageExtent.width
                capabilities.maxImageExtent.width
              height := clampSpec h.toNat capabilities.minImageExtent.height
                capabilities.maxImageExtent.height } ∧
          (capabilities.minImageExtent.width ≤ (chooseSwapExtent capabilities (w, h)).width ∧
            (chooseSwapExtent capabilities (w, h)).width ≤ capabilities.maxImageExtent.width ∧
            capabilities.minImageExtent.height ≤ (chooseSwapExtent capabilities (w, h)).height ∧
            (chooseSwapExtent capabilities (w, h)).height ≤
              capabilities.maxImageExtent.height) ∧
          (capabilities.minImageExtent.width ≤ w.toNat →
            w.toNat ≤ capabilities.maxImageExtent.width →
            capabilities.minImageExtent.height ≤ h.toNat →
            h.toNat ≤ capabilities.maxImageExtent.height →
            chooseSwapExtent capabilities (w, h) = { width := w.toNat, height := h.toNat })) := by
  constructor
  · intro hdef
    unfold chooseSwapExtent
    rw [if_pos hdef]
  · intro hundef hw0 hw1 hh0 hh1 hwr hhr
    have heq : chooseSwapExtent capabilities (w, h) =
        { width := clampSpec w.toNat capabilities.minImageExtent.width
            capabilities.maxImageExtent.width
          height := clampSpec h.toNat capabilities.minImageExtent.height
            capabilities.maxImageExtent.height } := by
      unfold chooseSwapExtent
      rw [if_neg (fun hn => hn hundef)]
      dsimp only
      rw [castUInt32_of_size w hw0 hw1, castUInt32_of_size h hh0 hh1,
        max_min_eq_clampSpec _ _ _ hwr, max_min_eq_clampSpec _ _ _ hhr]
    refine ⟨heq, ?_, ?_⟩
    · rw [heq]
      dsimp only
      unfold clampSpec
      refine ⟨?_, ?_, ?_, ?_⟩ <;> split <;> (try split) <;> omega
    · intro h1 h2 h3 h4
      rw [heq]
      unfold clampSpec
      rw [if_neg (by omega), if_neg (by omega), if_neg (by omega), if_neg (by omega)]

/-- The capability of the extent example of the specification: minimum
100 x 100, maximum 800 x 600, current extent undefined. -/
theorem chooseSwapExtent_spec_witness :
    chooseSwapExtent
        { minImageCount := 2, maxImageCount := 3
          currentExtent := { width := UINT32_MAX, height := UINT32_MAX }
          minImageExtent := { width := 100, height := 100 }
          maxImageExtent := { width := 800, height := 600 } } (50, 900) =
      { width := 100, height := 600 } :=
  ((chooseSwapExtent_spec
      { minImageCount := 2, maxImageCount := 3
        currentExtent := { width := UINT32_MAX, height := UINT32_MAX }
        minImageExtent := { width := 100, height := 100 }
        maxImageExtent := { width := 800, height := 600 } } 50 900).2 rfl (by decide)
    (by decide) (by decide) (by decide) (by decide) (by decide)).1


/-! ## C11: the requested image count -/

/-- C11, counterexample: for `minImageCount = 4294967295` the sum
`minImageCount + 1` wraps to 0 in 32-bit arithmetic, so the requested image
count is 0, which is neither `minImageCount + 1` nor at least `minImageCount`;
this happens with `maxImageCount = 0` and with
`maxImageCount = minImageCount`. -/
theorem requestedImageCount_wraps :
    requestedImageCount (countCapabilities 4294967295 0) = 0 ∧
      requestedImageCount (countCapabilities 4294967295 4294967295) = 0 ∧
      ¬ (4294967295 ≤ requestedImageCount (countCapabilities 4294967295 0)) := by
  decide

/-- C11 (amended): for `minImageCount < 4294967295`, and `maxImageCount = 0`
or `minImageCount ≤ maxImageCount`, the requested image count is
`minImageCount + 1`, reduced to `maxImageCount` exactly when `maxImageCount` is
nonzero and `minImageCount + 1` exceeds it; it is at least `minImageCount`, and
at most `maxImageCount` when that is nonzero. -/
theorem requestedImageCount_spec (capabilities : VkSurfaceCapabilitiesKHR)
    (hmin : capabilities.minImageCount < UINT32_MAX)
    (hle : capabilities.maxImageCount = 0 ∨
      capabilities.minImageCount ≤ capabilities.maxImageCount) :
    requestedImageCount capabilities =
        (if capabilities.maxImageCount ≠ 0 ∧
            capabilities.minImageCount + 1 > capabilities.maxImageCount then
          capabilities.maxImageCount
        else capabilities.minImageCount + 1) ∧
      capabilities.minImageCount ≤ requestedImageCount capabilities ∧
      (capabilities.maxImageCount ≠ 0 →
        requestedImageCount capabilities ≤ capabilities.maxImageCount) := by
  have hmod : (capabilities.minImageCount + 1) % 2 ^ 32 = capabilities.minImageCount + 1 := by
    apply Nat.mod_eq_of_lt
    unfold UINT32_MAX at hmin
    omega
  unfold requestedImageCount
  simp only [hmod]
  refine ⟨?_, ?_, ?_⟩
  · split <;> split <;> omega
  · split <;> omega
  · intro _
    split <;> omega

theorem requestedImageCount_spec_witness :
    requestedImageCount (countCapabilities 2 3) = 3 ∧
      requestedImageCount (countCapabilities 3 3) = 3 ∧
      requestedImageCount (countCapabilities 2 0) = 3 :=
  ⟨(requestedImageCount_spec (countCapabilities 2 3) (by decide) (by decide)).1,
    (requestedImageCount_spec (countCapabilities 3 3) (by decide) (by decide)).1,
    (requestedImageCount_spec (countCapabilities 2 0) (by decide) (by decide)).1⟩

/-! ## C12: the surface format -/

theorem find_preferred (before after : List VkSurfaceFormatKHR) (f : VkSurfaceFormatKHR)
    (hf : preferredFormat f) (hbefore : ∀ g ∈ before, ¬ preferredFormat g) :
    (before ++ f :: after).find? (fun availableFormat =>
      availableFormat.format == VK_FORMAT_B8G8R8A8_SRGB &&
      availableFormat.colorSpace == VK_COLOR_SPACE_SRGB_NONLINEAR_KHR) = some f := by
  induction before with
  | nil =>
    have h : (f.format == VK_FORMAT_B8G8R8A8_SRGB &&
        f.colorSpace == VK_COLOR_SPACE_SRGB_NONLINEAR_KHR) = true := by
      simp [hf.1, hf.2]
    simp [List.find?, h]
  | cons g rest ih =>
    have hg : (g.format == VK_FORMAT_B8G8R8A8_SRGB &&
        g.colorSpace == VK_COLOR_SPACE_SRGB_NONLINEAR_KHR) = false := by
      have := hbefore g (List.mem_cons_self _ _)
      unfold preferredFormat at this
      cases h1 : g.format == VK_FORMAT_B8G8R8A8_SRGB <;>
        cases h2 : g.colorSpace == VK_COLOR_SPACE_SRGB_NONLINEAR_KHR <;> simp_all
    rw [List.cons_append, List.find?_cons, hg]
    exact ih (fun x hx => hbefore x (List.mem_cons_of_mem _ hx))

theorem find_none_of_no_preferred (availableFormats : List VkSurfaceFormatKHR)
    (h : ∀ g ∈ availableFormats, ¬ preferredFormat g) :
    availableFormats.find? (fun availableFormat =>
      availableFormat.format == VK_FORMAT_B8G8R8A8_SRGB &&
      availableFormat.colorSpace == VK_COLOR_SPACE_SRGB_NONLINEAR_KHR) = none := by
  rw [List.find?_eq_none]
  intro g hg hp
  apply h g hg
  simp only [Bool.and_eq_true, beq_iff_eq] at hp
  exact hp

/-- C12: on a non-empty list `chooseSwapSurfaceFormat` reads inside the list
and returns a member of it: the first entry with format
`VK_FORMAT_B8G8R8A8_SRGB` and colour space `VK_COLOR_SPACE_SRGB_NONLINEAR_KHR`
wherever in the list that entry stands, and the first entry of the list when
there is no such entry. -/
theorem chooseSwapSurfaceFormat_spec (availableFormats : List VkSurfaceFormatKHR)
    (hne : availableFormats ≠ []) :
    ∃ chosen, chooseSwapSurfaceFormat availableFormats = some chosen ∧
      chosen ∈ availableFormats ∧
      (∀ before f after, availableFormats = before ++ f :: after → preferredFormat f →
        (∀ g ∈ before, ¬ preferredFormat g) → chosen = f) ∧
      ((∀ g ∈ availableFormats, ¬ preferredFormat g) →
        some chosen = availableFormats.head?) := by
  cases hfind : availableFormats.find? (fun availableFormat =>
      availableFormat.format == VK_FORMAT_B8G8R8A8_SRGB &&
      availableFormat.colorSpace == VK_COLOR_SPACE_SRGB_NONLINEAR_KHR) with
  | some chosen =>
    refine ⟨chosen, ?_, List.mem_of_find?_eq_some hfind, ?_, ?_⟩
    · unfold chooseSwapSurfaceFormat
      rw [hfind]
    · intro before f after hsplit hf hbefore
      rw [hsplit, find_preferred before after f hf hbefore] at hfind
      cases hfind
      rfl
    · intro hnone
      rw [find_none_of_no_preferred _ hnone] at hfind
      cases hfind
  | none =>
    cases availableFormats with
    | nil => exact absurd rfl hne
    | cons first rest =>
      refine ⟨first, ?_, List.mem_cons_self _ _, ?_, fun _ => rfl⟩
      · unfold chooseSwapSurfaceFormat
        rw [hfind]
        rfl
      · intro before f after hsplit hf hbefore
        rw [hsplit, find_preferred before after f hf hbefore] at hfind
        cases hfind

theorem chooseSwapSurfaceFormat_spec_witness :
    ∃ chosen,
      chooseSwapSurfaceFormat
          [{ format := 44, colorSpace := 0 },
           { format := VK_FORMAT_B8G8R8A8_SRGB,
             colorSpace := VK_COLOR_SPACE_SRGB_NONLINEAR_KHR }] = some chosen ∧
      chosen = { format := VK_FORMAT_B8G8R8A8_SRGB,
                 colorSpace := VK_COLOR_SPACE_SRGB_NONLINEAR_KHR } := by
  obtain ⟨chosen, h1, _, h3, _⟩ := chooseSwapSurfaceFormat_spec
    [{ format := 44, colorSpace := 0 },
     { format := VK_FORMAT_B8G8R8A8_SRGB, colorSpace := VK_COLOR_SPACE_SRGB_NONLINEAR_KHR }]
    (by decide)
  exact ⟨chosen, h1, h3 [{ format := 44, colorSpace := 0 }] _ [] rfl (by decide) (by decide)⟩

/-! ## C13: the present mode -/

/-- C13: `chooseSwapPresentMode` returns `VK_PRESENT_MODE_MAILBOX_KHR` exactly
when that mode occurs in the list, at whatever position, and
`VK_PRESENT_MODE_FIFO_KHR` in every other case; the list FIFO, MAILBOX gives
MAILBOX and the list FIFO gives FIFO. -/
theorem chooseSwapPresentMode_spec (availablePresentModes : List VkPresentModeKHR) :
    (chooseSwapPresentMode availablePresentModes = VK_PRESENT_MODE_MAILBOX_KHR ↔
        VK_PRESENT_MODE_MAILBOX_KHR ∈ availablePresentModes) ∧
      (VK_PRESENT_MODE_MAILBOX_KHR ∉ availablePresentModes →
        chooseSwapPresentMode availablePresentModes = VK_PRESENT_MODE_FIFO_KHR) ∧
      chooseSwapPresentMode [VK_PRESENT_MODE_FIFO_KHR, VK_PRESENT_MODE_MAILBOX_KHR] =
        VK_PRESENT_MODE_MAILBOX_KHR ∧
      chooseSwapPresentMode [VK_PRESENT_MODE_FIFO_KHR] = VK_PRESENT_MODE_FIFO_KHR := by
  have key : (VK_PRESENT_MODE_MAILBOX_KHR ∈ availablePresentModes →
        chooseSwapPresentMode availablePresentModes = VK_PRESENT_MODE_MAILBOX_KHR) ∧
      (VK_PRESENT_MODE_MAILBOX_KHR ∉ availablePresentModes →
        chooseSwapPresentMode availablePresentModes = VK_PRESENT_MODE_FIFO_KHR) := by
    unfold chooseSwapPresentMode
    cases hfind : availablePresentModes.find? (fun availablePresentMode =>
        availablePresentMode == VK_PRESENT_MODE_MAILBOX_KHR) with
    | some mode =>
      have hmode : mode = VK_PRESENT_MODE_MAILBOX_KHR := by
        have := List.find?_some hfind
        exact beq_iff_eq.1 this
      have hmem : mode ∈ availablePresentModes := List.mem_of_find?_eq_some hfind
      refine ⟨fun _ => hmode, fun hnot => ?_⟩
      rw [hmode] at hmem
      exact absurd hmem hnot
    | none =>
      rw [List.find?_eq_none] at hfind
      refine ⟨fun hmem => ?_, fun _ => rfl⟩
      exact absurd (beq_self_eq_true _) (hfind _ hmem)
  refine ⟨⟨fun h => ?_, key.1⟩, key.2, by decide, by decide⟩
  by_contra hnot
  rw [key.2 hnot] at h
  revert h
  decide


/-! ## C14: the recorded command buffers -/

theorem length_foldl_set {α : Type} (f : Nat → α) (indices : List Nat) (b : List α) :
    (indices.foldl (fun b i => b.set i (f i)) b).length = b.length := by
  induction indices generalizing b with
  | nil => rfl
  | cons i rest ih =>
    rw [List.foldl_cons, ih, List.length_set]

theorem get_foldl_set {α : Type} (f : Nat → α) (indices : List Nat) (b : List α) (j : Nat)
    (hj : j < b.length) :
    (indices.foldl (fun b i => b.set i (f i)) b).get? j =
      if j ∈ indices then some (f j) else b.get? j := by
  induction indices generalizing b with
  | nil => simp
  | cons i rest ih =>
    rw [List.foldl_cons, ih (b.set i (f i)) (by rw [List.length_set]; exact hj)]
    by_cases hrest : j ∈ rest
    · rw [if_pos hrest, if_pos (List.mem_cons_of_mem _ hrest)]
    · rw [if_neg hrest]
      by_cases hji : j = i
      · subst hji
        rw [if_pos (List.mem_cons_self _ _)]
        simp [hj]
      · rw [if_neg (by simp [hji, hrest])]
        simp [List.getElem?_set, Ne.symm hji]

theorem recordBuffer_of_success (env : CommanderEnv) (i : Nat) (s : Instance)
    (descriptorSet : Handle)
    (hb : env.beginResult i = VK_SUCCESS) (he : env.endResult i = VK_SUCCESS)
    (hd : s.descriptor.descriptorSets.get? i = some descriptorSet) :
    recordBuffer env i s =
      { inst := s.setBuffer i (recordedCommands s i descriptorSet ++ [Cmd.endCommandBuffer])
        trace := [], status := Status.returned } := by
  unfold recordBuffer
  rw [if_neg (by simp [hb]), hd]
  dsimp only
  rw [if_neg (by simp [he])]

theorem forEach_recordBuffer (env : CommanderEnv) (indices : List Nat) (s : Instance)
    (h : ∀ i ∈ indices, env.beginResult i = VK_SUCCESS ∧ env.endResult i = VK_SUCCESS ∧
      i < s.descriptor.descriptorSets.length) :
    forEach (recordBuffer env) indices s =
      { inst := { s with commander := { buffers :=
            (indices.foldl (fun b i => b.set i
              (recordedCommands s i (s.descriptor.descriptorSets.getD i VK_NULL_HANDLE) ++
                [Cmd.endCommandBuffer])) s.commander.buffers) } }
        trace := [], status := Status.returned } := by
  induction indices generalizing s with
  | nil => rfl
  | cons i rest ih =>
    obtain ⟨hb, he, hi⟩ := h i (List.mem_cons_self _ _)
    have hd : s.descriptor.descriptorSets.get? i =
        some (s.descriptor.descriptorSets.getD i VK_NULL_HANDLE) := by
      simp [List.getD, List.getElem?_eq_getElem hi]
    show (recordBuffer env i s).andThen (forEach (recordBuffer env) rest) = _
    rw [recordBuffer_of_success env i s _ hb he hd, andThen_of_returned _ _ rfl]
    dsimp only
    rw [ih (s.setBuffer i (recordedCommands s i
        (s.descriptor.descriptorSets.getD i VK_NULL_HANDLE) ++ [Cmd.endCommandBuffer]))
      (fun j hj => h j (List.mem_cons_of_mem _ hj))]
    rfl

theorem createBuffers_of_success (env : CommanderEnv) (s : Instance)
    (hsets : getSwapChainSize s ≤ s.descriptor.descriptorSets.length)
    (ha : env.allocateResult = VK_SUCCESS)
    (hb : ∀ i, i < getSwapChainSize s → env.beginResult i = VK_SUCCESS)
    (he : ∀ i, i < getSwapChainSize s → env.endResult i = VK_SUCCESS) :
    createBuffers env s =
      { inst := { s with commander := { buffers :=
            (List.range (getSwapChainSize s)).foldl (fun b i => b.set i
              (recordedCommands s i (s.descriptor.descriptorSets.getD i VK_NULL_HANDLE) ++
                [Cmd.endCommandBuffer])) (List.replicate (getSwapChainSize s) []) } }.setLive
            Resource.commandBuffers true
        trace := [Call.allocateCommandBuffers (getSwapChainSize s)]
        status := Status.returned } := by
  unfold createBuffers
  dsimp only
  rw [if_neg (by simp [ha]), andThen_of_returned _ _ rfl]
  dsimp only
  rw [forEach_recordBuffer env _ _ (fun i hi => by
    have := List.mem_range.1 hi
    exact ⟨hb i this, he i this, lt_of_lt_of_le this hsets⟩)]
  rfl

theorem submit_mem_stepsToImageWait (fence semaphore owner : Handle) (k : Nat)
    (x : FrameCall) (h : x ∈ stepsToImageWait fence semaphore owner k) :
    x.isSubmit = false := by
  have hnil : (stepsToImageWait fence semaphore owner k).filter FrameCall.isSubmit = [] := by
    unfold stepsToImageWait stepsToAcquire imageWait
    split <;> rfl
  have hx := List.filter_eq_nil_iff.1 hnil x h
  simpa using hx

theorem submit_mem_stepsToSubmit (fence semaphore owner : Handle) (k : Nat)
    (recorded : List Cmd) (renderFinished : Handle) (x : FrameCall)
    (h : x ∈ stepsToSubmit fence semaphore owner k recorded renderFinished)
    (hx : x.isSubmit = true) :
    x = FrameCall.queueSubmit recorded semaphore renderFinished fence := by
  unfold stepsToSubmit at h
  rw [List.mem_append] at h
  rcases h with h | h
  · rw [submit_mem_stepsToImageWait _ _ _ _ _ h] at hx
    cases hx
  · simp at h
    rcases h with h | h
    · subst h
      cases hx
    · exact h

theorem submit_mem_stepsToPresent (fence semaphore owner : Handle) (k : Nat)
    (recorded : List Cmd) (renderFinished : Handle) (x : FrameCall)
    (h : x ∈ stepsToPresent fence semaphore owner k recorded renderFinished)
    (hx : x.isSubmit = true) :
    x = FrameCall.queueSubmit recorded semaphore renderFinished fence := by
  unfold stepsToPresent at h
  rw [List.mem_append] at h
  rcases h with h | h
  · exact submit_mem_stepsToSubmit _ _ _ _ _ _ _ h hx
  · simp at h
    subst h
    cases hx

theorem drawFrame_submits_indexed (F : Nat) (env : FrameEnv) (s : Instance)
    (x : FrameCall) (h : x ∈ (drawFrame F env s).trace) (hx : x.isSubmit = true) :
    ∃ recorded renderFinished semaphore fence,
      s.commander.buffers.get? env.imageIndex = some recorded ∧
      x = FrameCall.queueSubmit recorded semaphore renderFinished fence := by
  revert h
  refine drawFrame_elim F env s
    (fun o => x ∈ o.trace → ∃ recorded renderFinished semaphore fence,
      s.commander.buffers.get? env.imageIndex = some recorded ∧
      x = FrameCall.queueSubmit recorded semaphore renderFinished fence)
    ?_ ?_ ?_ ?_ ?_ ?_ ?_ ?_
  · intro _ h
    cases h
  · intro _ _ _ _ _ h
    simp at h
    rcases h with h | h | h <;> subst h <;> cases hx
  · intro _ _ _ _ _ h
    simp at h
    rcases h with h | h <;> subst h <;> cases hx
  · intro _ _ _ _ _ _ h
    simp [stepsToAcquire] at h
    rcases h with h | h <;> subst h <;> cases hx
  · intro _ _ owner _ _ _ _ _ h
    rw [submit_mem_stepsToImageWait _ _ _ _ _ h] at hx
    cases hx
  · intro _ _ owner cb rf _ _ _ _ hcb _ _ h
    exact ⟨cb, rf, _, _, hcb, submit_mem_stepsToSubmit _ _ _ _ _ _ _ h hx⟩
  · intro f2 _ owner cb rf _ _ _ _ hcb _ _ _ h
    rw [(present_rebuild F env.rebuild (s.claim env.imageIndex f2) _).1, List.mem_append] at h
    rcases h with h | h
    · exact ⟨cb, rf, _, _, hcb, submit_mem_stepsToPresent _ _ _ _ _ _ _ h hx⟩
    · simp at h
      subst h
      cases hx
  · intro _ _ owner cb rf _ _ _ _ hcb _ _ _ h
    exact ⟨cb, rf, _, _, hcb, submit_mem_stepsToPresent _ _ _ _ _ _ _ h hx⟩

/-- C14: when allocation and recording succeed and there is a descriptor set
for every image, `createBuffers` returns with as many command buffers as
`getSwapChainSize()` reports, and buffer `i` holds exactly: begin buffer, begin
render pass for image `i` with the clear values colour (0, 0, 0, 1) and depth
1 / stencil 0, bind the graphics pipeline, bind the vertex buffer at offset 0,
bind the index buffer, bind descriptor set `i`, one indexed draw of `nIndices`
indices and 1 instance, end render pass, end buffer.  Every submission of a
`drawFrame` that follows carries the buffer at the acquired image index. -/
theorem createBuffers_spec (env : CommanderEnv) (s : Instance)
    (hsets : getSwapChainSize s ≤ s.descriptor.descriptorSets.length)
    (ha : env.allocateResult = VK_SUCCESS)
    (hb : ∀ i, i < getSwapChainSize s → env.beginResult i = VK_SUCCESS)
    (he : ∀ i, i < getSwapChainSize s → env.endResult i = VK_SUCCESS) :
    (createBuffers env s).status = Status.returned ∧
      (createBuffers env s).inst.commander.buffers.length =
        getSwapChainSize (createBuffers env s).inst ∧
      getSwapChainSize (createBuffers env s).inst = getSwapChainSize s ∧
      (∀ i, i < getSwapChainSize s →
        ∃ descriptorSet, s.descriptor.descriptorSets.get? i = some descriptorSet ∧
          (createBuffers env s).inst.commander.buffers.get? i = some
            [ Cmd.beginCommandBuffer,
              Cmd.beginRenderPass i [VkClearValue.color 0 0 0 1, VkClearValue.depthStencil 1 0],
              Cmd.bindPipeline s.renderer.graphicsPipeline,
              Cmd.bindVertexBuffers 0 [s.descriptor.vertexBuffer] [0],
              Cmd.bindIndexBuffer s.descriptor.indexBuffer 0,
              Cmd.bindDescriptorSets s.renderer.pipelineLayout 0 [descriptorSet],
              Cmd.drawIndexed s.descriptor.nIndices 1 0 0 0,
              Cmd.endRenderPass,
              Cmd.endCommandBuffer ]) ∧
      (∀ F frame x, x ∈ (drawFrame F frame (createBuffers env s).inst).trace →
        x.isSubmit = true →
        ∃ recorded renderFinished semaphore fence,
          (createBuffers env s).inst.commander.buffers.get? frame.imageIndex = some recorded ∧
          x = FrameCall.queueSubmit recorded semaphore renderFinished fence) := by
  refine ⟨?_, ?_, ?_, ?_, fun F frame x h hx => drawFrame_submits_indexed F frame _ x h hx⟩
  · rw [createBuffers_of_success env s hsets ha hb he]
  · rw [createBuffers_of_success env s hsets ha hb he]
    show List.length (List.foldl _ _ _) = getSwapChainSize s
    rw [length_foldl_set (fun i => recordedCommands s i
      (s.descriptor.descriptorSets.getD i VK_NULL_HANDLE) ++ [Cmd.endCommandBuffer]),
      List.length_replicate]
  · rw [createBuffers_of_success env s hsets ha hb he]
    rfl
  · intro i hi
    have hlt : i < s.descriptor.descriptorSets.length := lt_of_lt_of_le hi hsets
    refine ⟨s.descriptor.descriptorSets.getD i VK_NULL_HANDLE, ?_, ?_⟩
    · simp [List.getD, List.getElem?_eq_getElem hlt]
    · rw [createBuffers_of_success env s hsets ha hb he]
      show List.get? (List.foldl _ _ _) i = _
      rw [get_foldl_set (fun i => recordedCommands s i
        (s.descriptor.descriptorSets.getD i VK_NULL_HANDLE) ++ [Cmd.endCommandBuffer]) _ _ i
        (by rw [List.length_replicate]; exact hi), if_pos (List.mem_range.2 hi)]
      rfl

/-- The buffers recorded for the example instance: three of them, buffer 1
binding pipeline 61, vertex buffer 71, index buffer 72 and descriptor set 82;
a frame that acquires image 1 submits that buffer. -/
theorem createBuffers_spec_witness :
    (createBuffers exampleCommanderEnv (exampleInstance false)).status = Status.returned ∧
      (createBuffers exampleCommanderEnv (exampleInstance false)).inst.commander.buffers.length
        = 3 ∧
      (createBuffers exampleCommanderEnv (exampleInstance false)).inst.commander.buffers.get? 1
        = some
          [ Cmd.beginCommandBuffer,
            Cmd.beginRenderPass 1 [VkClearValue.color 0 0 0 1, VkClearValue.depthStencil 1 0],
            Cmd.bindPipeline 61,
            Cmd.bindVertexBuffers 0 [71] [0],
            Cmd.bindIndexBuffer 72 0,
            Cmd.bindDescriptorSets 62 0 [82],
            Cmd.drawIndexed 6 1 0 0 0,
            Cmd.endRenderPass,
            Cmd.endCommandBuffer ] ∧
      (drawFrame 2 (exampleFrameEnv VK_SUCCESS 1 VK_SUCCESS VK_SUCCESS)
          (createBuffers exampleCommanderEnv (exampleInstance false)).inst).trace.filter
        FrameCall.isSubmit =
        [FrameCall.queueSubmit
          [ Cmd.beginCommandBuffer,
            Cmd.beginRenderPass 1 [VkClearValue.color 0 0 0 1, VkClearValue.depthStencil 1 0],
            Cmd.bindPipeline 61,
            Cmd.bindVertexBuffers 0 [71] [0],
            Cmd.bindIndexBuffer 72 0,
            Cmd.bindDescriptorSets 62 0 [82],
            Cmd.drawIndexed 6 1 0 0 0,
            Cmd.endRenderPass,
            Cmd.endCommandBuffer ] 21 31 11] := by
  have h := createBuffers_spec exampleCommanderEnv (exampleInstance false) (by decide) rfl
    (fun _ _ => rfl) (fun _ _ => rfl)
  refine ⟨h.1, h.2.1.trans (by decide), ?_, by decide⟩
  obtain ⟨descriptorSet, hset, hbuffer⟩ := h.2.2.2.1 1 (by decide)
  have h82 : descriptorSet = 82 := by
    have : (exampleInstance false).descriptor.descriptorSets.get? 1 = some 82 := by decide
    rw [this] at hset
    cases hset
    rfl
  rw [hbuffer, h82]
  rfl


/-! ## C15: the order of shutdown -/

theorem range_map_getD {α : Type} (l : List α) (d : α) (n : Nat) (hn : n ≤ l.length) :
    (List.range n).map (fun i => l.getD i d) = l.take n := by
  apply List.ext_getElem
  · simp [hn]
  · intro i h1 h2
    simp at h1 h2
    simp [List.getD, List.getElem?_eq_getElem (show i < l.length by omega)]

theorem forEach_destroyImageView (views : List Handle) (indices : List Nat) (s : Instance)
    (hs : s.surface.swapChainImageViews = views) (h : ∀ i ∈ indices, i < views.length) :
    forEach (fun i st =>
        match st.surface.swapChainImageViews.get? i with
        | some view =>
          ({ inst := st, trace := [Call.destroyImageView view], status := Status.returned } :
            Outcome Call)
        | none => { inst := st, trace := [], status := Status.undefined })
      indices s =
      { inst := s
        trace := indices.map (fun i => Call.destroyImageView (views.getD i VK_NULL_HANDLE))
        status := Status.returned } := by
  induction indices with
  | nil => rfl
  | cons i rest ih =>
    have hi : i < views.length := h i (List.mem_cons_self _ _)
    have hget : s.surface.swapChainImageViews.get? i = some (views.getD i VK_NULL_HANDLE) := by
      rw [hs]
      simp [List.getD, List.getElem?_eq_getElem hi]
    unfold forEach
    simp only [hget]
    rw [andThen_of_returned _ _ rfl]
    dsimp only
    rw [ih (fun j hj => h j (List.mem_cons_of_mem _ hj))]
    rfl

theorem destroyImageViews_of_views (s : Instance)
    (hviews : s.surface.swapChainImages.length % 2 ^ 32 ≤ s.surface.swapChainImageViews.length) :
    destroyImageViews s =
      { inst := s.setLive Resource.imageViews false
        trace := (s.surface.swapChainImageViews.take
          (s.surface.swapChainImages.length % 2 ^ 32)).map Call.destroyImageView
        status := Status.returned } := by
  unfold destroyImageViews
  dsimp only
  rw [forEach_destroyImageView s.surface.swapChainImageViews _ s rfl
    (fun i hi => lt_of_lt_of_le (List.mem_range.1 hi) hviews),
    andThen_of_returned _ _ rfl]
  dsimp only [done]
  rw [List.append_nil, ← range_map_getD _ VK_NULL_HANDLE _ hviews, List.map_map]
  rfl

theorem cleanupSwapChain_of_views (s : Instance)
    (hviews : s.surface.swapChainImages.length % 2 ^ 32 ≤ s.surface.swapChainImageViews.length) :
    ∃ t, cleanupSwapChain s =
        { inst := t
          trace := releasedBeforeViews ++
            (s.surface.swapChainImageViews.take
              (s.surface.swapChainImages.length % 2 ^ 32)).map Call.destroyImageView ++
            [Call.destroy Resource.swapChain, Call.destroy Resource.uniformBuffers,
              Call.destroy Resource.descriptorPool]
          status := Status.returned } ∧
      t.validationLayersEnabled = s.validationLayersEnabled := by
  unfold cleanupSwapChain destroyBuffers destroySwapChain
  simp only [destroyResource, Outcome.andThen]
  rw [destroyImageViews_of_views
    ((((((s.setLive Resource.colourResources false).setLive Resource.depthResources
      false).setLive Resource.framebuffers false).setLive Resource.commandBuffers
      false).setLive Resource.graphicsPipeline false).setLive Resource.renderPass false) hviews]
  simp only [destroyResource, Outcome.andThen]
  refine ⟨(((((((((s.setLive Resource.colourResources false).setLive Resource.depthResources
    false).setLive Resource.framebuffers false).setLive Resource.commandBuffers
    false).setLive Resource.graphicsPipeline false).setLive Resource.renderPass
    false).setLive Resource.imageViews false).setLive Resource.swapChain false).setLive
    Resource.uniformBuffers false).setLive Resource.descriptorPool false, rfl, ?_⟩
  simp only [Instance.setLive]

/-- C15, counterexample: after a `create` that succeeds, `destroy` releases the
colour resources first and the sync objects and the command pool only after the
swapchain.  Restricted to the kinds the shutdown order of the specification
names, the order of release is neither that order nor the reverse of the order
in which `create` created them. -/
theorem destroy_order_not_reverse :
    (create 2 false exampleCreateEnv emptyInstance).status = Status.returned ∧
      creationOrder (create 2 false exampleCreateEnv emptyInstance).trace =
        [Resource.window, Resource.vkInstance, Resource.surface, Resource.logicalDevice,
         Resource.swapChain, Resource.imageViews, Resource.renderPass,
         Resource.descriptorSetLayout, Resource.graphicsPipeline, Resource.commandPool,
         Resource.colourResources, Resource.depthResources, Resource.framebuffers,
         Resource.texture, Resource.vertexBuffer, Resource.indexBuffer,
         Resource.uniformBuffers, Resource.descriptorPool, Resource.descriptorSets,
         Resource.commandBuffers, Resource.syncObjects] ∧
      releaseOrder (destroy (create 2 false exampleCreateEnv emptyInstance).inst).trace =
        [Resource.colourResources, Resource.depthResources, Resource.framebuffers,
         Resource.commandBuffers, Resource.graphicsPipeline, Resource.renderPass,
         Resource.imageViews, Resource.swapChain, Resource.uniformBuffers,
         Resource.descriptorPool, Resource.texture, Resource.descriptorSetLayout,
         Resource.indexBuffer, Resource.vertexBuffer, Resource.syncObjects,
         Resource.commandPool, Resource.logicalDevice, Resource.surface,
         Resource.vkInstance, Resource.window] ∧
      (releaseOrder (destroy (create 2 false exampleCreateEnv emptyInstance).inst).trace).filter
          (fun r => shutdownOrder.contains r) ≠ shutdownOrder ∧
      (releaseOrder (destroy (create 2 false exampleCreateEnv emptyInstance).inst).trace).filter
          (fun r => shutdownOrder.contains r) ≠
        ((creationOrder (create 2 false exampleCreateEnv emptyInstance).trace).filter
          (fun r => shutdownOrder.contains r)).reverse := by
  decide

/-- C15 (amended): when every swapchain image has a view, `destroy` returns
after releasing, in this order: colour resources, depth resources,
framebuffers, command buffers, graphics pipeline, render pass, the image
views, swapchain, uniform buffers, descriptor pool (the steps of
`cleanupSwapChain`), then texture, descriptor set layout, index buffer, vertex
buffer, sync objects, command pool, logical device, the debug messenger when
validation layers are enabled, surface, instance and window, and it ends with
`glfwTerminate`. -/
theorem destroy_order (s : Instance)
    (hviews : s.surface.swapChainImages.length % 2 ^ 32 ≤ s.surface.swapChainImageViews.length) :
    (destroy s).status = Status.returned ∧
      (destroy s).trace =
        releasedBeforeViews ++
          (s.surface.swapChainImageViews.take
            (s.surface.swapChainImages.length % 2 ^ 32)).map Call.destroyImageView ++
          releasedAfterViews ++
          (if s.validationLayersEnabled = true then [Call.destroy Resource.debugMessenger]
            else []) ++
          releasedLast := by
  obtain ⟨t, hclean, hval⟩ := cleanupSwapChain_of_views s hviews
  unfold destroy
  rw [hclean]
  by_cases hv : s.validationLayersEnabled = true
  · have ht : t.validationLayersEnabled = true := hval.trans hv
    simp [destroyResource, Outcome.andThen, done, Instance.setLive, ht, hv,
      releasedAfterViews, releasedLast]
  · have ht : ¬ t.validationLayersEnabled = true := fun h => hv (hval.symm.trans h)
    simp [destroyResource, Outcome.andThen, done, Instance.setLive, ht, hv,
      releasedAfterViews, releasedLast]

theorem destroy_order_witness :
    (destroy (exampleInstance false)).status = Status.returned ∧
      (destroy (exampleInstance false)).trace =
        [Call.destroy Resource.colourResources, Call.destroy Resource.depthResources,
         Call.destroy Resource.framebuffers, Call.destroy Resource.commandBuffers,
         Call.destroy Resource.graphicsPipeline, Call.destroy Resource.renderPass,
         Call.destroyImageView 51, Call.destroyImageView 52, Call.destroyImageView 53,
         Call.destroy Resource.swapChain, Call.destroy Resource.uniformBuffers,
         Call.destroy Resource.descriptorPool, Call.destroy Resource.texture,
         Call.destroy Resource.descriptorSetLayout, Call.destroy Resource.indexBuffer,
         Call.destroy Resource.vertexBuffer, Call.destroy Resource.syncObjects,
         Call.destroy Resource.commandPool, Call.destroy Resource.logicalDevice,
         Call.destroy Resource.surface, Call.destroy Resource.vkInstance,
         Call.destroy Resource.window, Call.glfwTerminate] :=
  ⟨(destroy_order (exampleInstance false) (by decide)).1,
    (destroy_order (exampleInstance false) (by decide)).2.trans (by decide)⟩


/-! ## C16: layout transitions -/

theorem transitionImageLayout_recognized (env : TransitionEnv) (image : Handle)
    (format : VkFormat) (oldLayout newLayout : VkImageLayout) (mipLevels : Nat)
    (h : recognizedTransition oldLayout newLayout) :
    ∃ sourceStage destinationStage barrier,
      transitionImageLayout env image format oldLayout newLayout mipLevels =
        { calls := beginSingleTimeCommands env.commandBuffer ++
            [TransferCall.cmdPipelineBarrier env.commandBuffer sourceStage destinationStage
              barrier] ++ endSingleTimeCommands env.commandBuffer
          status := Status.returned } ∧
      barrier.oldLayout = oldLayout ∧ barrier.newLayout = newLayout ∧
      barrier.image = image := by
  unfold transitionImageLayout
  dsimp only
  by_cases h1 : oldLayout = VK_IMAGE_LAYOUT_UNDEFINED ∧
      newLayout = VK_IMAGE_LAYOUT_TRANSFER_DST_OPTIMAL
  · rw [if_pos h1]
    exact ⟨_, _, _, rfl, rfl, rfl, rfl⟩
  · rw [if_neg h1]
    by_cases h2 : oldLayout = VK_IMAGE_LAYOUT_TRANSFER_DST_OPTIMAL ∧
        newLayout = VK_IMAGE_LAYOUT_SHADER_READ_ONLY_OPTIMAL
    · rw [if_pos h2]
      exact ⟨_, _, _, rfl, rfl, rfl, rfl⟩
    · rw [if_neg h2]
      by_cases h3 : oldLayout = VK_IMAGE_LAYOUT_UNDEFINED ∧
          newLayout = VK_IMAGE_LAYOUT_DEPTH_STENCIL_ATTACHMENT_OPTIMAL
      · rw [if_pos h3]
        exact ⟨_, _, _, rfl, rfl, rfl, rfl⟩
      · rcases h with h | h | h
        · exact absurd h h1
        · exact absurd h h2
        · exact absurd h h3

theorem transitionImageLayout_unrecognized (env : TransitionEnv) (image : Handle)
    (format : VkFormat) (oldLayout newLayout : VkImageLayout) (mipLevels : Nat)
    (h : ¬ recognizedTransition oldLayout newLayout) :
    transitionImageLayout env image format oldLayout newLayout mipLevels =
      { calls := beginSingleTimeCommands env.commandBuffer
        status := Status.threw "unsupported layout transition!" } := by
  unfold transitionImageLayout
  dsimp only
  rw [if_neg (fun h1 => h (Or.inl h1)), if_neg (fun h2 => h (Or.inr (Or.inl h2))),
    if_neg (fun h3 => h (Or.inr (Or.inr h3)))]

/-- C16: `transitionImageLayout` throws "unsupported layout transition!"
exactly when the pair of layouts is not one of the three recognized
transitions.  When it throws, the command buffer has been allocated and begun
but no pipeline barrier is recorded and nothing is submitted; when it does not,
it returns after recording exactly one barrier, for the given image and
layouts, into the command buffer and submitting that command buffer once. -/
theorem transitionImageLayout_spec (env : TransitionEnv) (image : Handle)
    (format : VkFormat) (oldLayout newLayout : VkImageLayout) (mipLevels : Nat) :
    ((transitionImageLayout env image format oldLayout newLayout mipLevels).status =
          Status.threw "unsupported layout transition!" ↔
        ¬ recognizedTransition oldLayout newLayout) ∧
      (¬ recognizedTransition oldLayout newLayout →
        (transitionImageLayout env image format oldLayout newLayout mipLevels).calls =
          beginSingleTimeCommands env.commandBuffer ∧
        (transitionImageLayout env image format oldLayout newLayout mipLevels).calls.countP
          TransferCall.isBarrier = 0 ∧
        (transitionImageLayout env image format oldLayout newLayout mipLevels).calls.countP
          TransferCall.isQueueSubmit = 0) ∧
      (recognizedTransition oldLayout newLayout →
        (transitionImageLayout env image format oldLayout newLayout mipLevels).status =
          Status.returned ∧
        (transitionImageLayout env image format oldLayout newLayout mipLevels).calls.countP
          TransferCall.isBarrier = 1 ∧
        (transitionImageLayout env image format oldLayout newLayout mipLevels).calls.countP
          TransferCall.isQueueSubmit = 1 ∧
        ∃ sourceStage destinationStage barrier,
          (transitionImageLayout env image format oldLayout newLayout mipLevels).calls =
            beginSingleTimeCommands env.commandBuffer ++
              [TransferCall.cmdPipelineBarrier env.commandBuffer sourceStage destinationStage
                barrier] ++ endSingleTimeCommands env.commandBuffer ∧
          barrier.oldLayout = oldLayout ∧ barrier.newLayout = newLayout ∧
          barrier.image = image) := by
  refine ⟨⟨fun hthrew => ?_, fun hn => ?_⟩, fun hn => ?_, fun hr => ?_⟩
  · intro hr
    obtain ⟨_, _, _, heq, _⟩ :=
      transitionImageLayout_recognized env image format oldLayout newLayout mipLevels hr
    rw [heq] at hthrew
    cases hthrew
  · rw [transitionImageLayout_unrecognized env image format oldLayout newLayout mipLevels hn]
  · rw [transitionImageLayout_unrecognized env image format oldLayout newLayout mipLevels hn]
    exact ⟨rfl, rfl, rfl⟩
  · obtain ⟨sourceStage, destinationStage, barrier, heq, h1, h2, h3⟩ :=
      transitionImageLayout_recognized env image format oldLayout newLayout mipLevels hr
    rw [heq]
    exact ⟨rfl, rfl, rfl, sourceStage, destinationStage, barrier, rfl, h1, h2, h3⟩

/-- The depth transition of an image with a stencil component returns after
one barrier on both aspects; the reverse of the upload transition throws
before any barrier. -/
theorem transitionImageLayout_spec_witness :
    transitionImageLayout exampleTransitionEnv 5 129 VK_IMAGE_LAYOUT_UNDEFINED
        VK_IMAGE_LAYOUT_DEPTH_STENCIL_ATTACHMENT_OPTIMAL 1 =
      { calls :=
          [TransferCall.allocateCommandBuffers 1, TransferCall.beginCommandBuffer 91,
           TransferCall.cmdPipelineBarrier 91 1 256
             { oldLayout := 0, newLayout := 3, image := 5, aspectMask := 6
               baseMipLevel := 0, levelCount := 1, baseArrayLayer := 0, layerCount := 1
               srcAccessMask := 0, dstAccessMask := 1536 },
           TransferCall.endCommandBuffer 91, TransferCall.queueSubmit 91,
           TransferCall.queueWaitIdle, TransferCall.freeCommandBuffers 91]
        status := Status.returned } ∧
      (transitionImageLayout exampleTransitionEnv 5 37 VK_IMAGE_LAYOUT_TRANSFER_DST_OPTIMAL
          VK_IMAGE_LAYOUT_UNDEFINED 1).status =
        Status.threw "unsupported layout transition!" ∧
      (transitionImageLayout exampleTransitionEnv 5 37 VK_IMAGE_LAYOUT_TRANSFER_DST_OPTIMAL
          VK_IMAGE_LAYOUT_UNDEFINED 1).calls =
        [TransferCall.allocateCommandBuffers 1, TransferCall.beginCommandBuffer 91] :=
  ⟨by decide,
    (transitionImageLayout_spec exampleTransitionEnv 5 37 VK_IMAGE_LAYOUT_TRANSFER_DST_OPTIMAL
      VK_IMAGE_LAYOUT_UNDEFINED 1).1.2 (by decide),
    ((transitionImageLayout_spec exampleTransitionEnv 5 37 VK_IMAGE_LAYOUT_TRANSFER_DST_OPTIMAL
      VK_IMAGE_LAYOUT_UNDEFINED 1).2.1 (by decide)).1⟩

end VulkanTest
